import Mathlib

/-!
Verification of the tc flower rule parser of libkefir.

The data model is translated from `src/libkefir_internals.h`, the parser from
`src/libkefir_parse_tc.c`.  The generic value-codec primitives
(`parse_uint`, `parse_uint_slash_mask`, the address parsers and
`parse_check_and_store_uint`) live in `libkefir_parse.c`, which is not part of
the sources under verification; they are modelled from the specification's
collaborator contracts (spec §6) and are marked as such below.

C null-terminated token arrays become `List String`; the shared
argv/argc cursor becomes explicit list passing; machine integers become `Nat`
(byte buffers become `List Nat` of bytes); fallible functions return
`Option` or `Except ParseError`.
-/

namespace Kefir

/-- enum comp_operator (libkefir_internals.h).  `EQUAL` is the zero value. -/
inductive CompOperator where
  | EQUAL | LT | LEQ | GT | GEQ
  deriving DecidableEq

/-- enum action_code / KEFIR_ACTION_CODE_* (libkefir_internals.h). -/
inductive ActionCode where
  | DROP | PASS
  deriving DecidableEq

/-- enum match_type (libkefir_internals.h).  `UNSPEC` is the zero value used
as the "slot not filled / end of list" sentinel.  The constructors
`SVLAN_ID`, `SVLAN_PRIORITY`, `SVLAN_ETHERTYPE` are the
`KEFIR_MATCH_TYPE_SVLAN_*` constants referenced by libkefir_parse_tc.c
(declared in the public header, not under the verified sources); the C names
`*_PRIO` are spelled `*_PRIORITY` here. -/
inductive MatchType where
  | UNSPEC
  | ETHER_SRC | ETHER_DST | ETHER_ANY | ETHER_PROTO
  | IP_4_SRC | IP_4_DST | IP_4_ANY | IP_4_TOS | IP_4_TTL | IP_4_FLAGS
  | IP_4_L4PROTO | IP_4_L4DATA | IP_4_L4PORT_SRC | IP_4_L4PORT_DST
  | IP_4_L4PORT_ANY | IP_4_SPI | IP_4_TCP_FLAGS
  | IP_6_SRC | IP_6_DST | IP_6_ANY | IP_6_TOS | IP_6_TTL | IP_6_FLAGS
  | IP_6_L4PROTO | IP_6_L4DATA | IP_6_L4PORT_SRC | IP_6_L4PORT_DST
  | IP_6_L4PORT_ANY | IP_6_SPI | IP_6_TCP_FLAGS
  | IP_ANY_SRC | IP_ANY_DST | IP_ANY_ANY | IP_ANY_TOS | IP_ANY_TTL
  | IP_ANY_FLAGS | IP_ANY_L4PROTO | IP_ANY_L4DATA | IP_ANY_L4PORT_SRC
  | IP_ANY_L4PORT_DST | IP_ANY_L4PORT_ANY | IP_ANY_SPI | IP_ANY_TCP_FLAGS
  | VLAN_ID | VLAN_PRIORITY | VLAN_ETHERTYPE
  | SVLAN_ID | SVLAN_PRIORITY | SVLAN_ETHERTYPE
  | CVLAN_ID | CVLAN_PRIORITY | CVLAN_ETHERTYPE
  | MPLS_LABEL | MPLS_TC | MPLS_BOS | MPLS_TTL
  | ICMP_TYPE | ICMP_CODE
  | ARP_TIP | ARP_SIP | ARP_OP | ARP_THA | ARP_SHA
  | ENC_KEY_ID | ENC_DST_ID | ENC_SRC_ID | ENC_DST_PORT | ENC_TOS | ENC_TTL
  | GENEVE_OPTIONS
  deriving DecidableEq

/-- enum value_format (libkefir_internals.h).  `BIT` is the zero value. -/
inductive ValueFormat where
  | BIT | UINT3 | UINT6 | UINT8 | UINT12 | UINT16 | UINT20 | UINT32
  | MAC_ADDR | IPV4_ADDR | IPV6_ADDR
  deriving DecidableEq

/-- The union inside struct kefir_value: which member was last stored.
Addresses are byte lists (6 bytes for `eth`, 4 for `ipv4`, 16 for `ipv6`);
`raw` is the 16-byte zero-initialized storage. -/
inductive ValueData where
  | raw (bytes : List Nat)
  | eth (bytes : List Nat)
  | ipv6 (bytes : List Nat)
  | ipv4 (bytes : List Nat)
  | u32 (v : Nat)
  | u16 (v : Nat)
  | u8 (v : Nat)
  deriving DecidableEq

/-- struct kefir_value (libkefir_internals.h). -/
structure kefir_value where
  data : ValueData
  format : ValueFormat
  deriving DecidableEq

/-- struct kefir_match (libkefir_internals.h): matched field kind, comparison
operator, value, 16-byte range upper bound, 16-byte mask, option flags. -/
structure kefir_match where
  match_type : MatchType
  comp_operator : CompOperator
  value : kefir_value
  max_value : List Nat
  mask : List Nat
  flags : Nat
  deriving DecidableEq

/-- KEFIR_MAX_MATCH_PER_RULE (libkefir_internals.h). -/
def KEFIR_MAX_MATCH_PER_RULE : Nat := 5

/-- struct kefir_rule (libkefir_internals.h): a 5-slot match array plus one
action code.  The C field `matches` is spelled `matchList` here because
`matches` is a reserved word in Lean. -/
structure kefir_rule where
  matchList : List kefir_match
  action : ActionCode
  deriving DecidableEq

/-- A zero-initialized struct kefir_match, as produced by
`struct kefir_match matches[KEFIR_MAX_MATCH_PER_RULE] = { {0} }` in
tcflower_parse_rule (all enum fields at their zero constructor, all byte
buffers zeroed). -/
def initMatch : kefir_match :=
  { match_type := .UNSPEC
    comp_operator := .EQUAL
    value := { data := .raw (List.replicate 16 0), format := .BIT }
    max_value := List.replicate 16 0
    mask := List.replicate 16 0
    flags := 0 }

/-- The structured failure kinds of the parser, one per `err_fail` site of
libkefir_parse_tc.c, named as in the specification (§7). -/
inductive ParseError where
  | BadArgumentCount
  | MissingProtocolKeyword
  | UnsupportedProtocol (tok : String)
  | UnsupportedMatchKeyword (tok : String)
  | UnsupportedProtocolNumber (tok : String)
  | MalformedValue
  | MissingRequiredMatch
  | MissingActionKeyword
  | UnsupportedActionCode
  deriving DecidableEq

instance {ε α : Type} [DecidableEq ε] [DecidableEq α] : DecidableEq (Except ε α) := by
  intro a b
  cases a <;> cases b
  case error.error e e2 =>
    exact if h : e = e2 then .isTrue (by rw [h]) else
      .isFalse (fun hc => h (by cases hc; rfl))
  case error.ok e x => exact .isFalse (fun hc => by cases hc)
  case ok.error x e => exact .isFalse (fun hc => by cases hc)
  case ok.ok x y =>
    exact if h : x = y then .isTrue (by rw [h]) else
      .isFalse (fun hc => h (by cases hc; rfl))

/-! ## Value codec (collaborator, modelled from the spec)

The functions below stand for the primitives of `libkefir_parse.c`, which is
outside the verified sources.  They follow the contracts of spec §6:
bit-width-checked unsigned integers, addresses with an optional `/mask` or
`/prefixlen` suffix, and a default all-ones (exact-match) mask. -/

/-- Split a character list at every occurrence of `sep`. -/
def splitOnChar (sep : Char) : List Char → List (List Char)
  | [] => [[]]
  | c :: rest =>
    match splitOnChar sep rest with
    | [] => [[]]
    | grp :: more => if c = sep then [] :: grp :: more else (c :: grp) :: more

/-- Decimal digit value of a character. -/
def decVal (c : Char) : Option Nat :=
  if '0' ≤ c ∧ c ≤ '9' then some (c.toNat - 48) else none

/-- Hexadecimal digit value of a character. -/
def hexVal (c : Char) : Option Nat :=
  if '0' ≤ c ∧ c ≤ '9' then some (c.toNat - 48)
  else if 'a' ≤ c ∧ c ≤ 'f' then some (c.toNat - 87)
  else if 'A' ≤ c ∧ c ≤ 'F' then some (c.toNat - 55)
  else none

/-- Accumulate digits in the given base; fails on any non-digit. -/
def parseNatCore (base : Nat) (digit : Char → Option Nat) :
    List Char → Nat → Option Nat
  | [], acc => some acc
  | c :: rest, acc =>
    match digit c with
    | none => none
    | some d => parseNatCore base digit rest (base * acc + d)

/-- A non-empty all-digit numeral in the given base. -/
def parseNatDigits (base : Nat) (digit : Char → Option Nat)
    (cs : List Char) : Option Nat :=
  if cs.isEmpty then none else parseNatCore base digit cs 0

/-- A numeric literal: decimal, or hexadecimal with a 0x/0X prefix. -/
def parseNatToken : List Char → Option Nat
  | '0' :: 'x' :: rest => parseNatDigits 16 hexVal rest
  | '0' :: 'X' :: rest => parseNatDigits 16 hexVal rest
  | cs => parseNatDigits 10 decVal cs

/-- Modelled from the spec: the unsigned-integer parser collaborator.  Given a
literal and a bit width, returns the numeric value, failing when the literal
is malformed or the value does not fit the width. -/
def parse_uint (input : String) (nbits : Nat) : Option Nat :=
  match parseNatToken input.toList with
  | none => none
  | some v => if v < 2 ^ nbits then some v else none

/-- The all-ones 16-byte mask: exact match. -/
def onesMask16 : List Nat := List.replicate 16 255

/-- `width` bytes of `n`, big-endian. -/
def bytesOfNatBE : Nat → Nat → List Nat
  | 0, _ => []
  | w + 1, n => (n / 256 ^ w) % 256 :: bytesOfNatBE w n

/-- Byte `i` of the 16-byte mask with the first `len` bits set. -/
def prefixLenMaskByte (len i : Nat) : Nat :=
  if 8 * (i + 1) ≤ len then 255
  else if len ≤ 8 * i then 0
  else 256 - 2 ^ (8 * (i + 1) - len)

/-- The 16-byte mask with the first `len` bits set. -/
def maskBytesOfPrefixLen (len : Nat) : List Nat :=
  (List.range 16).map (prefixLenMaskByte len)

/-- Modelled from the spec: the unsigned-integer-with-mask parser
collaborator.  Parses `value` or `value/mask` at the given bit width and
fills the 16-byte mask buffer, defaulting to all-ones (exact match) when no
explicit mask is given. -/
def parse_uint_slash_mask (input : String) (nbits : Nat) :
    Option (Nat × List Nat) :=
  match splitOnChar '/' input.toList with
  | [v] =>
    match parseNatToken v with
    | none => none
    | some x => if x < 2 ^ nbits then some (x, onesMask16) else none
  | [v, mstr] =>
    match parseNatToken v, parseNatToken mstr with
    | some x, some mval =>
      if x < 2 ^ nbits ∧ mval < 2 ^ nbits then
        some (x, bytesOfNatBE ((nbits + 7) / 8) mval ++
          List.replicate (16 - (nbits + 7) / 8) 0)
      else none
    | _, _ => none
  | _ => none

/-- One colon-separated byte of a MAC address: one or two hex digits. -/
def parseHexPair (cs : List Char) : Option Nat :=
  if cs.length = 0 ∨ 2 < cs.length then none else parseNatDigits 16 hexVal cs

/-- The six colon-separated bytes of a MAC address. -/
def parseMacBytes (cs : List Char) : Option (List Nat) :=
  match (splitOnChar ':' cs).mapM parseHexPair with
  | none => none
  | some bs => if bs.length = 6 then some bs else none

/-- Modelled from the spec: the MAC-address-with-mask parser collaborator.
Accepts `addr`, `addr/mask` (a second MAC) or `addr/prefixlen`; the mask
defaults to all-ones. -/
def parse_eth_addr_slash_mask (input : String) :
    Option (List Nat × List Nat) :=
  match splitOnChar '/' input.toList with
  | [a] => (parseMacBytes a).map (fun b => (b, onesMask16))
  | [a, mstr] =>
    match parseMacBytes a with
    | none => none
    | some b =>
      match parseMacBytes mstr with
      | some mb => some (b, mb ++ List.replicate 10 0)
      | none =>
        match parseNatDigits 10 decVal mstr with
        | some len => if len ≤ 48 then some (b, maskBytesOfPrefixLen len) else none
        | none => none
  | _ => none

/-- The four dot-separated decimal bytes of an IPv4 address. -/
def parseIPv4Bytes (cs : List Char) : Option (List Nat) :=
  match (splitOnChar '.' cs).mapM (parseNatDigits 10 decVal) with
  | none => none
  | some parts =>
    if parts.length == 4 && parts.all (fun b => b ≤ 255) then some parts else none

/-- Modelled from the spec: the IPv4-address-with-mask parser collaborator.
Accepts `addr` or `addr/prefixlen`; the mask defaults to all-ones. -/
def parse_ipv4_addr_slash_mask (input : String) :
    Option (List Nat × List Nat) :=
  match splitOnChar '/' input.toList with
  | [a] => (parseIPv4Bytes a).map (fun b => (b, onesMask16))
  | [a, mstr] =>
    match parseIPv4Bytes a, parseNatDigits 10 decVal mstr with
    | some b, some len =>
      if len ≤ 32 then some (b, maskBytesOfPrefixLen len) else none
    | _, _ => none
  | _ => none

/-- The sixteen bytes of an IPv6 address written as eight colon-separated
hexadecimal groups (the model omits `::` compression, which no verified
property depends on). -/
def parseIPv6Bytes (cs : List Char) : Option (List Nat) :=
  match (splitOnChar ':' cs).mapM (fun g =>
      if g.length = 0 ∨ 4 < g.length then none
      else parseNatDigits 16 hexVal g) with
  | none => none
  | some gs =>
    if gs.length == 8 && gs.all (fun g => g ≤ 65535) then
      some ((gs.map (fun g => [g / 256, g % 256])).flatten)
    else none

/-- Modelled from the spec: the IPv6-address-with-mask parser collaborator.
Accepts `addr` or `addr/prefixlen`; the mask defaults to all-ones. -/
def parse_ipv6_addr_slash_mask (input : String) :
    Option (List Nat × List Nat) :=
  match splitOnChar '/' input.toList with
  | [a] => (parseIPv6Bytes a).map (fun b => (b, onesMask16))
  | [a, mstr] =>
    match parseIPv6Bytes a, parseNatDigits 10 decVal mstr with
    | some b, some len =>
      if len ≤ 128 then some (b, maskBytesOfPrefixLen len) else none
    | _, _ => none
  | _ => none

/-- Modelled from the spec: the protocol-number store helper collaborator,
which validates that a known numeric value fits the bit width. -/
def parse_check_and_store_uint (value : Nat) (nbits : Nat)
    (_is_mask : Bool) : Option Nat :=
  if value < 2 ^ nbits then some value else none

/-! ## The tc flower parser (libkefir_parse_tc.c) -/

/-- enum ether_proto_type (libkefir_parse_tc.c). -/
inductive EtherProtoType where
  | UNSPEC | IPV4 | IPV6 | OTHER
  deriving DecidableEq

/-- tcflower_parse_ethproto (libkefir_parse_tc.c:31): the family token must
be `ip`, `ipv4` (both IPv4) or `ipv6`; the token is consumed.  The `[]` case
cannot be reached from tcflower_parse_rule, which guarantees at least five
remaining tokens here. -/
def tcflower_parse_ethproto (toks : List String) :
    Except ParseError (EtherProtoType × List String) :=
  match toks with
  | [] => .error .BadArgumentCount
  | tok :: rest =>
    if tok = "ip" ∨ tok = "ipv4" then .ok (.IPV4, rest)
    else if tok = "ipv6" then .ok (.IPV6, rest)
    else .error (.UnsupportedProtocol tok)

/-- tcflower_parse_ipproto (libkefir_parse_tc.c:48): a named protocol alias
(tcp=6, udp=17, sctp=132, icmp=1, icmpv6=58) or an 8-bit numeric literal. -/
def tcflower_parse_ipproto (input : String) : Option Nat :=
  if input = "tcp" then parse_check_and_store_uint 6 8 false
  else if input = "udp" then parse_check_and_store_uint 17 8 false
  else if input = "sctp" then parse_check_and_store_uint 132 8 false
  else if input = "icmp" then parse_check_and_store_uint 1 8 false
  else if input = "icmpv6" then parse_check_and_store_uint 58 8 false
  else parse_uint input 8

/-- The keyword dispatch chain of tcflower_parse_match
(libkefir_parse_tc.c:91-232): given the keyword token `kw` and its value
token `v`, write the value, the mask (for the slash-mask-capable keywords
only), and the match kind into `m`.  The family-dependent keywords pick the
IPv4- or IPv6-flavored kind from `ethtype` (the C local `ipv6_flow` is
inlined as the test `ethtype = EtherProtoType.IPV6`). -/
def tcflower_match_dispatch (kw v : String) (ethtype : EtherProtoType)
    (m : kefir_match) : Except ParseError kefir_match :=
  if kw = "dst_mac" then
    match parse_eth_addr_slash_mask v with
    | none => .error .MalformedValue
    | some p =>
      .ok { m with value := { m.value with data := .eth p.1 },
                   mask := p.2, match_type := .ETHER_DST }
  else if kw = "src_mac" then
    match parse_eth_addr_slash_mask v with
    | none => .error .MalformedValue
    | some p =>
      .ok { m with value := { m.value with data := .eth p.1 },
                   mask := p.2, match_type := .ETHER_SRC }
  else if kw = "vlan_id" then
    match parse_uint v 12 with
    | none => .error .MalformedValue
    | some n =>
      .ok { m with value := { m.value with data := .u16 n },
                   match_type := .SVLAN_ID }
  else if kw = "vlan_prio" then
    match parse_uint v 3 with
    | none => .error .MalformedValue
    | some n =>
      .ok { m with value := { m.value with data := .u8 n },
                   match_type := .SVLAN_PRIORITY }
  else if kw = "vlan_ethtype" then
    match parse_uint v 16 with
    | none => .error .MalformedValue
    | some n =>
      .ok { m with value := { m.value with data := .u16 n },
                   match_type := .SVLAN_ETHERTYPE }
  else if kw = "cvlan_id" then
    match parse_uint v 12 with
    | none => .error .MalformedValue
    | some n =>
      .ok { m with value := { m.value with data := .u16 n },
                   match_type := .CVLAN_ID }
  else if kw = "cvlan_prio" then
    match parse_uint v 3 with
    | none => .error .MalformedValue
    | some n =>
      .ok { m with value := { m.value with data := .u8 n },
                   match_type := .CVLAN_PRIORITY }
  else if kw = "cvlan_ethtype" then
    match parse_uint v 16 with
    | none => .error .MalformedValue
    | some n =>
      .ok { m with value := { m.value with data := .u16 n },
                   match_type := .CVLAN_ETHERTYPE }
  else if kw = "ip_proto" then
    match tcflower_parse_ipproto v with
    | none => .error (.UnsupportedProtocolNumber v)
    | some n =>
      .ok { m with value := { m.value with data := .u8 n },
                   match_type :=
                     if ethtype = EtherProtoType.IPV6 then .IP_6_L4PROTO else .IP_4_L4PROTO }
  else if kw = "ip_tos" then
    match parse_uint_slash_mask v 8 with
    | none => .error .MalformedValue
    | some p =>
      .ok { m with value := { m.value with data := .u8 p.1 },
                   mask := p.2,
                   match_type := if ethtype = EtherProtoType.IPV6 then .IP_6_TOS else .IP_4_TOS }
  else if kw = "ip_ttl" then
    match parse_uint_slash_mask v 8 with
    | none => .error .MalformedValue
    | some p =>
      .ok { m with value := { m.value with data := .u8 p.1 },
                   mask := p.2,
                   match_type := if ethtype = EtherProtoType.IPV6 then .IP_6_TTL else .IP_4_TTL }
  else if kw = "dst_ip" then
    if ethtype = EtherProtoType.IPV6 then
      match parse_ipv6_addr_slash_mask v with
      | none => .error .MalformedValue
      | some p =>
        .ok { m with value := { m.value with data := .ipv6 p.1 },
                     mask := p.2, match_type := .IP_6_DST }
    else
      match parse_ipv4_addr_slash_mask v with
      | none => .error .MalformedValue
      | some p =>
        .ok { m with value := { m.value with data := .ipv4 p.1 },
                     mask := p.2, match_type := .IP_4_DST }
  else if kw = "src_ip" then
    if ethtype = EtherProtoType.IPV6 then
      match parse_ipv6_addr_slash_mask v with
      | none => .error .MalformedValue
      | some p =>
        .ok { m with value := { m.value with data := .ipv6 p.1 },
                     mask := p.2, match_type := .IP_6_SRC }
    else
      match parse_ipv4_addr_slash_mask v with
      | none => .error .MalformedValue
      | some p =>
        .ok { m with value := { m.value with data := .ipv4 p.1 },
                     mask := p.2, match_type := .IP_4_SRC }
  else if kw = "dst_port" then
    match parse_uint v 16 with
    | none => .error .MalformedValue
    | some n =>
      .ok { m with value := { m.value with data := .u16 n },
                   match_type :=
                     if ethtype = EtherProtoType.IPV6 then .IP_6_L4PORT_DST else .IP_4_L4PORT_DST }
  else if kw = "src_port" then
    match parse_uint v 16 with
    | none => .error .MalformedValue
    | some n =>
      .ok { m with value := { m.value with data := .u16 n },
                   match_type :=
                     if ethtype = EtherProtoType.IPV6 then .IP_6_L4PORT_SRC else .IP_4_L4PORT_SRC }
  else .error (.UnsupportedMatchKeyword kw)

/-- tcflower_parse_match (libkefir_parse_tc.c:76): fails when fewer than two
tokens remain, sets the comparison operator to EQUAL, dispatches on the
keyword (consuming the keyword and value tokens), and finally fails when no
token remains after the clause. -/
def tcflower_parse_match (toks : List String) (ethtype : EtherProtoType)
    (m : kefir_match) : Except ParseError (kefir_match × List String) :=
  if toks.length < 2 then .error .BadArgumentCount
  else
    match toks with
    | kw :: v :: rest =>
      match tcflower_match_dispatch kw v ethtype
          { m with comp_operator := .EQUAL } with
      | .error e => .error e
      | .ok m2 =>
        if rest.length < 1 then .error .BadArgumentCount else .ok (m2, rest)
    | _ => .error .BadArgumentCount

/-- The L4-protocol cases of the switch in tcflower_check_matchlist
(libkefir_parse_tc.c:252-255). -/
def typeIsL4Proto (t : MatchType) : Bool :=
  match t with
  | .IP_4_L4PROTO | .IP_6_L4PROTO | .IP_ANY_L4PROTO => true
  | _ => false

/-- The L4-port cases of the switch in tcflower_check_matchlist
(libkefir_parse_tc.c:257-265). -/
def typeIsL4Port (t : MatchType) : Bool :=
  match t with
  | .IP_4_L4PORT_SRC | .IP_4_L4PORT_DST | .IP_4_L4PORT_ANY
  | .IP_6_L4PORT_SRC | .IP_6_L4PORT_DST | .IP_6_L4PORT_ANY
  | .IP_ANY_L4PORT_SRC | .IP_ANY_L4PORT_DST | .IP_ANY_L4PORT_ANY => true
  | _ => false

/-- The scan loop of tcflower_check_matchlist (libkefir_parse_tc.c:248-271):
walk the match array, stopping at the first UNSPEC slot, and record whether
an L4-port match and an L4-protocol match were seen. -/
def matchlistScan : List kefir_match → Bool × Bool
  | [] => (false, false)
  | m :: rest =>
    if m.match_type = .UNSPEC then (false, false)
    else
      let r := matchlistScan rest
      (r.1 || typeIsL4Port m.match_type, r.2 || typeIsL4Proto m.match_type)

/-- tcflower_check_matchlist (libkefir_parse_tc.c:243): fail with
MissingRequiredMatch when a port match was seen without an L4-protocol
match. -/
def tcflower_check_matchlist (match_list : List kefir_match) :
    Except ParseError Unit :=
  let found := matchlistScan match_list
  if found.1 && !found.2 then .error .MissingRequiredMatch else .ok ()

/-- tcflower_parse_action (libkefir_parse_tc.c:281): exactly two tokens must
remain, the first must be `action`, the second `pass` or `drop`. -/
def tcflower_parse_action (toks : List String) :
    Except ParseError ActionCode :=
  if toks.length ≠ 2 then .error .BadArgumentCount
  else
    match toks with
    | [a, code] =>
      if a ≠ "action" then .error .MissingActionKeyword
      else if code = "pass" then .ok .PASS
      else if code = "drop" then .ok .DROP
      else .error .UnsupportedActionCode
    | _ => .error .BadArgumentCount

/-- tcflower_compose_rule (libkefir_parse_tc.c:308): copy the match array and
the action into a fresh rule.  (The C allocation-failure path, pure resource
exhaustion, is not modelled.) -/
def tcflower_compose_rule (match_arr : List kefir_match)
    (action_code : ActionCode) : kefir_rule :=
  { matchList := match_arr, action := action_code }

/-- The 5-slot match array built from the collected matches: the remaining
slots keep their zero initialization (UNSPEC). -/
def padMatches (ms : List kefir_match) : List kefir_match :=
  ms ++ List.replicate (KEFIR_MAX_MATCH_PER_RULE - ms.length) initMatch

/-- The match-collection while loop of tcflower_parse_rule
(libkefir_parse_tc.c:360-364), by recursion on the number of free match
slots: the loop body runs only while `match_index < KEFIR_MAX_MATCH_PER_RULE`,
so it iterates at most `KEFIR_MAX_MATCH_PER_RULE - match_index` times, and
`slots` is exactly that count.  Each iteration requires more than two
remaining tokens and appends one parsed match. -/
def matchLoopAux (ethtype : EtherProtoType) :
    Nat → List String → List kefir_match →
    Except ParseError (List kefir_match × List String)
  | 0, toks, acc => .ok (acc, toks)
  | slots + 1, toks, acc =>
    if 2 < toks.length then
      match tcflower_parse_match toks ethtype initMatch with
      | .error e => .error e
      | .ok p => matchLoopAux ethtype slots p.2 (acc ++ [p.1])
    else .ok (acc, toks)

/-- The match-collection loop, entered with `match_index = acc.length`
matches already produced. -/
def tcflower_match_loop (ethtype : EtherProtoType) (toks : List String)
    (acc : List kefir_match) :
    Except ParseError (List kefir_match × List String) :=
  matchLoopAux ethtype (KEFIR_MAX_MATCH_PER_RULE - acc.length) toks acc

/-- The optional `flower` keyword skip of tcflower_parse_rule
(libkefir_parse_tc.c:354-358). -/
def skipFlower : List String → List String
  | [] => []
  | t :: rest => if t = "flower" then rest else t :: rest

/-- tcflower_parse_rule (libkefir_parse_tc.c:326): reject fewer than six
tokens, require the literal `protocol`, resolve the family, skip an optional
`flower`, collect up to five matches while more than two tokens remain,
validate the match list, parse the trailing action pair, and compose the
rule. -/
def tcflower_parse_rule (user_rule : List String) :
    Except ParseError kefir_rule :=
  if user_rule.length < 6 then .error .BadArgumentCount
  else
    match user_rule with
    | [] => .error .BadArgumentCount
    | t0 :: rest =>
      if t0 ≠ "protocol" then .error .MissingProtocolKeyword
      else
        match tcflower_parse_ethproto rest with
        | .error e => .error e
        | .ok (ethtype, toks1) =>
          match tcflower_match_loop ethtype (skipFlower toks1) [] with
          | .error e => .error e
          | .ok (ms, toks3) =>
            match tcflower_check_matchlist (padMatches ms) with
            | .error e => .error e
            | .ok _ =>
              match tcflower_parse_action toks3 with
              | .error e => .error e
              | .ok ac => .ok (tcflower_compose_rule (padMatches ms) ac)

/-- The populated prefix of a rule's match array: the slots up to the first
UNSPEC sentinel. -/
def matchesUpToUnspec : List kefir_match → List kefir_match
  | [] => []
  | m :: rest =>
    if m.match_type = .UNSPEC then [] else m :: matchesUpToUnspec rest

/-- The token stream of a list of `keyword value` match clauses. -/
def clauseTokens (cs : List (String × String)) : List String :=
  (cs.map (fun c => [c.1, c.2])).flatten

/-- The IPv4-flavored match kinds (the `IP_4_*` enum entries). -/
def isIPv4Flavored (t : MatchType) : Bool :=
  match t with
  | .IP_4_SRC | .IP_4_DST | .IP_4_ANY | .IP_4_TOS | .IP_4_TTL | .IP_4_FLAGS
  | .IP_4_L4PROTO | .IP_4_L4DATA | .IP_4_L4PORT_SRC | .IP_4_L4PORT_DST
  | .IP_4_L4PORT_ANY | .IP_4_SPI | .IP_4_TCP_FLAGS => true
  | _ => false

/-- The IPv6-flavored match kinds (the `IP_6_*` enum entries). -/
def isIPv6Flavored (t : MatchType) : Bool :=
  match t with
  | .IP_6_SRC | .IP_6_DST | .IP_6_ANY | .IP_6_TOS | .IP_6_TTL | .IP_6_FLAGS
  | .IP_6_L4PROTO | .IP_6_L4DATA | .IP_6_L4PORT_SRC | .IP_6_L4PORT_DST
  | .IP_6_L4PORT_ANY | .IP_6_SPI | .IP_6_TCP_FLAGS => true
  | _ => false

/-- The keywords whose value is parsed by the plain unsigned-integer codec,
which never writes the mask. -/
def plainUintKeywords : List String :=
  ["vlan_id", "vlan_prio", "vlan_ethtype", "cvlan_id", "cvlan_prio",
   "cvlan_ethtype", "ip_proto", "dst_port", "src_port"]

/-- The keywords whose value is parsed by a slash-mask-capable codec, which
fills the mask (all-ones when no explicit mask is given). -/
def slashMaskKeywords : List String :=
  ["dst_mac", "src_mac", "ip_tos", "ip_ttl", "dst_ip", "src_ip"]

/-! ## Helper lemmas -/

lemma initMatch_set_equal :
    { initMatch with comp_operator := CompOperator.EQUAL } = initMatch := rfl

lemma splitOnChar_of_not_contains {sep : Char} {l : List Char}
    (h : l.contains sep = false) : splitOnChar sep l = [l] := by
  induction l with
  | nil => rfl
  | cons c rest ih =>
    simp only [List.contains_cons, Bool.or_eq_false_iff, beq_eq_false_iff_ne] at h
    have hcs : ¬ c = sep := fun hc => h.1 hc.symm
    rw [splitOnChar, ih h.2]
    simp [hcs]

lemma parse_uint_slash_mask_default {v : String} {nbits : Nat}
    {p : Nat × List Nat} (hnc : v.toList.contains '/' = false)
    (h : parse_uint_slash_mask v nbits = some p) : p.2 = onesMask16 := by
  unfold parse_uint_slash_mask at h
  rw [splitOnChar_of_not_contains hnc] at h
  dsimp only at h
  rcases hp : parseNatToken v.toList with _ | x <;> rw [hp] at h
  · exact absurd h (by simp)
  · by_cases hx : x < 2 ^ nbits
    · simp only [if_pos hx, Option.some.injEq] at h
      subst h; rfl
    · simp [hx] at h

lemma parse_eth_addr_slash_mask_default {v : String}
    {p : List Nat × List Nat} (hnc : v.toList.contains '/' = false)
    (h : parse_eth_addr_slash_mask v = some p) : p.2 = onesMask16 := by
  unfold parse_eth_addr_slash_mask at h
  rw [splitOnChar_of_not_contains hnc] at h
  dsimp only at h
  rcases hp : parseMacBytes v.toList with _ | b <;> rw [hp] at h
  · exact absurd h (by simp)
  · simp only [Option.map_some', Option.some.injEq] at h
    subst h; rfl

lemma parse_ipv4_addr_slash_mask_default {v : String}
    {p : List Nat × List Nat} (hnc : v.toList.contains '/' = false)
    (h : parse_ipv4_addr_slash_mask v = some p) : p.2 = onesMask16 := by
  unfold parse_ipv4_addr_slash_mask at h
  rw [splitOnChar_of_not_contains hnc] at h
  dsimp only at h
  rcases hp : parseIPv4Bytes v.toList with _ | b <;> rw [hp] at h
  · exact absurd h (by simp)
  · simp only [Option.map_some', Option.some.injEq] at h
    subst h; rfl

lemma parse_ipv6_addr_slash_mask_default {v : String}
    {p : List Nat × List Nat} (hnc : v.toList.contains '/' = false)
    (h : parse_ipv6_addr_slash_mask v = some p) : p.2 = onesMask16 := by
  unfold parse_ipv6_addr_slash_mask at h
  rw [splitOnChar_of_not_contains hnc] at h
  dsimp only at h
  rcases hp : parseIPv6Bytes v.toList with _ | b <;> rw [hp] at h
  · exact absurd h (by simp)
  · simp only [Option.map_some', Option.some.injEq] at h
    subst h; rfl

set_option maxHeartbeats 1000000 in
lemma tcflower_match_dispatch_ok {kw v : String} {et : EtherProtoType}
    {m1 m0 : kefir_match}
    (h : tcflower_match_dispatch kw v et m1 = .ok m0) :
    m0.match_type ≠ .UNSPEC ∧
    m0.flags = m1.flags ∧ m0.max_value = m1.max_value ∧
    m0.comp_operator = m1.comp_operator ∧
    (et ≠ .IPV6 → isIPv6Flavored m0.match_type = false) ∧
    (et = .IPV6 → isIPv4Flavored m0.match_type = false) ∧
    (typeIsL4Port m0.match_type = true ↔ (kw = "dst_port" ∨ kw = "src_port")) ∧
    (typeIsL4Proto m0.match_type = true ↔ kw = "ip_proto") ∧
    (kw ∈ plainUintKeywords → m0.mask = m1.mask) ∧
    (kw ∈ slashMaskKeywords → v.toList.contains '/' = false →
      m0.mask = onesMask16) := by
  unfold tcflower_match_dispatch at h
  by_cases hk1 : kw = "dst_mac"
  · rw [if_pos hk1] at h
    rcases hp : parse_eth_addr_slash_mask v with _ | p <;> rw [hp] at h <;> dsimp only at h
    · cases h
    · cases h; subst hk1; dsimp only
      exact ⟨by decide, rfl, rfl, rfl, fun _ => by decide, fun _ => by decide,
        by decide, by decide, fun hmem => absurd hmem (by decide),
        fun _ hnc => parse_eth_addr_slash_mask_default hnc hp⟩
  · rw [if_neg hk1] at h
    by_cases hk2 : kw = "src_mac"
    · rw [if_pos hk2] at h
      rcases hp : parse_eth_addr_slash_mask v with _ | p <;> rw [hp] at h <;> dsimp only at h
      · cases h
      · cases h; subst hk2; dsimp only
        exact ⟨by decide, rfl, rfl, rfl, fun _ => by decide, fun _ => by decide,
          by decide, by decide, fun hmem => absurd hmem (by decide),
          fun _ hnc => parse_eth_addr_slash_mask_default hnc hp⟩
    · rw [if_neg hk2] at h
      by_cases hk3 : kw = "vlan_id"
      · rw [if_pos hk3] at h
        rcases hp : parse_uint v 12 with _ | p <;> rw [hp] at h <;> dsimp only at h
        · cases h
        · cases h; subst hk3; dsimp only
          exact ⟨by decide, rfl, rfl, rfl, fun _ => by decide, fun _ => by decide,
            by decide, by decide, fun _ => rfl,
            fun hmem _ => absurd hmem (by decide)⟩
      · rw [if_neg hk3] at h
        by_cases hk4 : kw = "vlan_prio"
        · rw [if_pos hk4] at h
          rcases hp : parse_uint v 3 with _ | p <;> rw [hp] at h <;> dsimp only at h
          · cases h
          · cases h; subst hk4; dsimp only
            exact ⟨by decide, rfl, rfl, rfl, fun _ => by decide, fun _ => by decide,
              by decide, by decide, fun _ => rfl,
              fun hmem _ => absurd hmem (by decide)⟩
        · rw [if_neg hk4] at h
          by_cases hk5 : kw = "vlan_ethtype"
          · rw [if_pos hk5] at h
            rcases hp : parse_uint v 16 with _ | p <;> rw [hp] at h <;> dsimp only at h
            · cases h
            · cases h; subst hk5; dsimp only
              exact ⟨by decide, rfl, rfl, rfl, fun _ => by decide, fun _ => by decide,
                by decide, by decide, fun _ => rfl,
                fun hmem _ => absurd hmem (by decide)⟩
          · rw [if_neg hk5] at h
            by_cases hk6 : kw = "cvlan_id"
            · rw [if_pos hk6] at h
              rcases hp : parse_uint v 12 with _ | p <;> rw [hp] at h <;> dsimp only at h
              · cases h
              · cases h; subst hk6; dsimp only
                exact ⟨by decide, rfl, rfl, rfl, fun _ => by decide, fun _ => by decide,
                  by decide, by decide, fun _ => rfl,
                  fun hmem _ => absurd hmem (by decide)⟩
            · rw [if_neg hk6] at h
              by_cases hk7 : kw = "cvlan_prio"
              · rw [if_pos hk7] at h
                rcases hp : parse_uint v 3 with _ | p <;> rw [hp] at h <;> dsimp only at h
                · cases h
                · cases h; subst hk7; dsimp only
                  exact ⟨by decide, rfl, rfl, rfl, fun _ => by decide, fun _ => by decide,
                    by decide, by decide, fun _ => rfl,
                    fun hmem _ => absurd hmem (by decide)⟩
              · rw [if_neg hk7] at h
                by_cases hk8 : kw = "cvlan_ethtype"
                · rw [if_pos hk8] at h
                  rcases hp : parse_uint v 16 with _ | p <;> rw [hp] at h <;> dsimp only at h
                  · cases h
                  · cases h; subst hk8; dsimp only
                    exact ⟨by decide, rfl, rfl, rfl, fun _ => by decide, fun _ => by decide,
                      by decide, by decide, fun _ => rfl,
                      fun hmem _ => absurd hmem (by decide)⟩
                · rw [if_neg hk8] at h
                  by_cases hk9 : kw = "ip_proto"
                  · rw [if_pos hk9] at h
                    rcases hp : tcflower_parse_ipproto v with _ | p <;> rw [hp] at h <;> dsimp only at h
                    · cases h
                    · by_cases het : et = EtherProtoType.IPV6
                      · rw [if_pos het] at h
                        cases h; subst hk9; subst het; dsimp only
                        exact ⟨by decide, rfl, rfl, rfl, fun hne => absurd rfl hne, fun _ => by decide,
                          by decide, by decide, fun _ => rfl, fun hmem _ => absurd hmem (by decide)⟩
                      · rw [if_neg het] at h
                        cases h; subst hk9; dsimp only
                        exact ⟨by decide, rfl, rfl, rfl, fun _ => by decide, fun he => absurd he het,
                          by decide, by decide, fun _ => rfl, fun hmem _ => absurd hmem (by decide)⟩
                  · rw [if_neg hk9] at h
                    by_cases hk10 : kw = "ip_tos"
                    · rw [if_pos hk10] at h
                      rcases hp : parse_uint_slash_mask v 8 with _ | p <;> rw [hp] at h <;> dsimp only at h
                      · cases h
                      · by_cases het : et = EtherProtoType.IPV6
                        · rw [if_pos het] at h
                          cases h; subst hk10; subst het; dsimp only
                          exact ⟨by decide, rfl, rfl, rfl, fun hne => absurd rfl hne, fun _ => by decide,
                            by decide, by decide, fun hmem => absurd hmem (by decide),
                            fun _ hnc => parse_uint_slash_mask_default hnc hp⟩
                        · rw [if_neg het] at h
                          cases h; subst hk10; dsimp only
                          exact ⟨by decide, rfl, rfl, rfl, fun _ => by decide, fun he => absurd he het,
                            by decide, by decide, fun hmem => absurd hmem (by decide),
                            fun _ hnc => parse_uint_slash_mask_default hnc hp⟩
                    · rw [if_neg hk10] at h
                      by_cases hk11 : kw = "ip_ttl"
                      · rw [if_pos hk11] at h
                        rcases hp : parse_uint_slash_mask v 8 with _ | p <;> rw [hp] at h <;> dsimp only at h
                        · cases h
                        · by_cases het : et = EtherProtoType.IPV6
                          · rw [if_pos het] at h
                            cases h; subst hk11; subst het; dsimp only
                            exact ⟨by decide, rfl, rfl, rfl, fun hne => absurd rfl hne, fun _ => by decide,
                              by decide, by decide, fun hmem => absurd hmem (by decide),
                              fun _ hnc => parse_uint_slash_mask_default hnc hp⟩
                          · rw [if_neg het] at h
                            cases h; subst hk11; dsimp only
                            exact ⟨by decide, rfl, rfl, rfl, fun _ => by decide, fun he => absurd he het,
                              by decide, by decide, fun hmem => absurd hmem (by decide),
                              fun _ hnc => parse_uint_slash_mask_default hnc hp⟩
                      · rw [if_neg hk11] at h
                        by_cases hk12 : kw = "dst_ip"
                        · rw [if_pos hk12] at h
                          by_cases het : et = EtherProtoType.IPV6
                          · rw [if_pos het] at h
                            rcases hp : parse_ipv6_addr_slash_mask v with _ | p <;> rw [hp] at h <;> dsimp only at h
                            · cases h
                            · cases h; subst hk12; subst het; dsimp only
                              exact ⟨by decide, rfl, rfl, rfl, fun hne => absurd rfl hne, fun _ => by decide,
                                by decide, by decide, fun hmem => absurd hmem (by decide),
                                fun _ hnc => parse_ipv6_addr_slash_mask_default hnc hp⟩
                          · rw [if_neg het] at h
                            rcases hp : parse_ipv4_addr_slash_mask v with _ | p <;> rw [hp] at h <;> dsimp only at h
                            · cases h
                            · cases h; subst hk12; dsimp only
                              exact ⟨by decide, rfl, rfl, rfl, fun _ => by decide, fun he => absurd he het,
                                by decide, by decide, fun hmem => absurd hmem (by decide),
                                fun _ hnc => parse_ipv4_addr_slash_mask_default hnc hp⟩
                        · rw [if_neg hk12] at h
                          by_cases hk13 : kw = "src_ip"
                          · rw [if_pos hk13] at h
                            by_cases het : et = EtherProtoType.IPV6
                            · rw [if_pos het] at h
                              rcases hp : parse_ipv6_addr_slash_mask v with _ | p <;> rw [hp] at h <;> dsimp only at h
                              · cases h
                              · cases h; subst hk13; subst het; dsimp only
                                exact ⟨by decide, rfl, rfl, rfl, fun hne => absurd rfl hne, fun _ => by decide,
                                  by decide, by decide, fun hmem => absurd hmem (by decide),
                                  fun _ hnc => parse_ipv6_addr_slash_mask_default hnc hp⟩
                            · rw [if_neg het] at h
                              rcases hp : parse_ipv4_addr_slash_mask v with _ | p <;> rw [hp] at h <;> dsimp only at h
                              · cases h
                              · cases h; subst hk13; dsimp only
                                exact ⟨by decide, rfl, rfl, rfl, fun _ => by decide, fun he => absurd he het,
                                  by decide, by decide, fun hmem => absurd hmem (by decide),
                                  fun _ hnc => parse_ipv4_addr_slash_mask_default hnc hp⟩
                          · rw [if_neg hk13] at h
                            by_cases hk14 : kw = "dst_port"
                            · rw [if_pos hk14] at h
                              rcases hp : parse_uint v 16 with _ | p <;> rw [hp] at h <;> dsimp only at h
                              · cases h
                              · by_cases het : et = EtherProtoType.IPV6
                                · rw [if_pos het] at h
                                  cases h; subst hk14; subst het; dsimp only
                                  exact ⟨by decide, rfl, rfl, rfl, fun hne => absurd rfl hne, fun _ => by decide,
                                    by decide, by decide, fun _ => rfl, fun hmem _ => absurd hmem (by decide)⟩
                                · rw [if_neg het] at h
                                  cases h; subst hk14; dsimp only
                                  exact ⟨by decide, rfl, rfl, rfl, fun _ => by decide, fun he => absurd he het,
                                    by decide, by decide, fun _ => rfl, fun hmem _ => absurd hmem (by decide)⟩
                            · rw [if_neg hk14] at h
                              by_cases hk15 : kw = "src_port"
                              · rw [if_pos hk15] at h
                                rcases hp : parse_uint v 16 with _ | p <;> rw [hp] at h <;> dsimp only at h
                                · cases h
                                · by_cases het : et = EtherProtoType.IPV6
                                  · rw [if_pos het] at h
                                    cases h; subst hk15; subst het; dsimp only
                                    exact ⟨by decide, rfl, rfl, rfl, fun hne => absurd rfl hne, fun _ => by decide,
                                      by decide, by decide, fun _ => rfl, fun hmem _ => absurd hmem (by decide)⟩
                                  · rw [if_neg het] at h
                                    cases h; subst hk15; dsimp only
                                    exact ⟨by decide, rfl, rfl, rfl, fun _ => by decide, fun he => absurd he het,
                                      by decide, by decide, fun _ => rfl, fun hmem _ => absurd hmem (by decide)⟩
                              · rw [if_neg hk15] at h
                                cases h

lemma tcflower_parse_match_ok_shape {toks : List String} {et : EtherProtoType}
    {m0 m : kefir_match} {rest : List String}
    (h : tcflower_parse_match toks et m0 = .ok (m, rest)) :
    ∃ kw v, toks = kw :: v :: rest ∧ rest ≠ [] ∧
      tcflower_match_dispatch kw v et { m0 with comp_operator := .EQUAL } = .ok m := by
  match toks with
  | [] => exact absurd h (by simp [tcflower_parse_match])
  | [a] => exact absurd h (by simp [tcflower_parse_match])
  | kw :: v :: rest2 =>
    unfold tcflower_parse_match at h
    rw [if_neg (by simp only [List.length_cons]; omega)] at h
    dsimp only at h
    rcases hd : tcflower_match_dispatch kw v et { m0 with comp_operator := .EQUAL }
      with e | m2 <;> rw [hd] at h <;> dsimp only at h
    · cases h
    · cases rest2 with
      | nil => simp at h
      | cons r rs =>
        rw [if_neg (by simp only [List.length_cons]; omega)] at h
        cases h
        exact ⟨kw, v, rfl, by simp, hd⟩

lemma tcflower_parse_match_intro {kw v : String} {rest : List String}
    {et : EtherProtoType} {m0 m : kefir_match} (hne : rest ≠ [])
    (hd : tcflower_match_dispatch kw v et { m0 with comp_operator := .EQUAL } = .ok m) :
    tcflower_parse_match (kw :: v :: rest) et m0 = .ok (m, rest) := by
  unfold tcflower_parse_match
  rw [if_neg (by simp only [List.length_cons]; omega)]
  dsimp only
  rw [hd]
  dsimp only
  rw [if_neg (by have := List.length_pos.mpr hne; omega)]

lemma clauseTokens_cons (c : String × String) (cs : List (String × String)) :
    clauseTokens (c :: cs) = c.1 :: c.2 :: clauseTokens cs := by
  simp [clauseTokens]

lemma clauseTokens_length (cs : List (String × String)) :
    (clauseTokens cs).length = 2 * cs.length := by
  induction cs with
  | nil => rfl
  | cons c rest ih => rw [clauseTokens_cons]; simp [ih]; omega

lemma matchLoopAux_ok {et : EtherProtoType} :
    ∀ (slots : Nat) (toks : List String) (acc res : List kefir_match)
      (rest : List String),
      matchLoopAux et slots toks acc = .ok (res, rest) →
      ∃ cs ms, res = acc ++ ms ∧ toks = clauseTokens cs ++ rest ∧
        ms.length ≤ slots ∧
        List.Forall₂
          (fun c m => tcflower_match_dispatch c.1 c.2 et initMatch = .ok m)
          cs ms := by
  intro slots
  induction slots with
  | zero =>
    intro toks acc res rest h
    cases h
    exact ⟨[], [], by simp, rfl, by simp, .nil⟩
  | succ s ih =>
    intro toks acc res rest h
    unfold matchLoopAux at h
    by_cases hlen : 2 < toks.length
    · rw [if_pos hlen] at h
      rcases hpm : tcflower_parse_match toks et initMatch with e | pr <;>
        rw [hpm] at h <;> dsimp only at h
      · cases h
      · obtain ⟨cs, ms, hres, hrest2, hlen2, hfa⟩ := ih _ _ _ _ h
        obtain ⟨kw, v, htoks, -, hd⟩ := tcflower_parse_match_ok_shape hpm
        rw [initMatch_set_equal] at hd
        refine ⟨(kw, v) :: cs, pr.1 :: ms, ?_, ?_, ?_, ?_⟩
        · rw [hres]; simp
        · rw [htoks, hrest2, clauseTokens_cons]; simp
        · simp only [List.length_cons]; omega
        · exact List.Forall₂.cons hd hfa
    · rw [if_neg hlen] at h
      cases h
      exact ⟨[], [], by simp, rfl, by simp, .nil⟩

lemma matchLoopAux_ok_nonempty {et : EtherProtoType} {s : Nat}
    {toks : List String} {acc res : List kefir_match} {rest : List String}
    (hlen : 2 < toks.length)
    (h : matchLoopAux et (s + 1) toks acc = .ok (res, rest)) :
    acc.length < res.length := by
  unfold matchLoopAux at h
  rw [if_pos hlen] at h
  rcases hpm : tcflower_parse_match toks et initMatch with e | pr <;>
    rw [hpm] at h <;> dsimp only at h
  · cases h
  · obtain ⟨cs, ms, hres, -, -, -⟩ := matchLoopAux_ok _ _ _ _ _ h
    rw [hres]
    simp only [List.length_append, List.length_cons]
    omega

lemma tcflower_match_loop_exit {et : EtherProtoType} {toks : List String}
    {acc : List kefir_match}
    (h : toks.length ≤ 2 ∨ KEFIR_MAX_MATCH_PER_RULE ≤ acc.length) :
    tcflower_match_loop et toks acc = .ok (acc, toks) := by
  unfold tcflower_match_loop
  rcases h with h | h
  · cases hs : KEFIR_MAX_MATCH_PER_RULE - acc.length with
    | zero => rfl
    | succ s =>
      unfold matchLoopAux
      rw [if_neg (by omega)]
  · have hs : KEFIR_MAX_MATCH_PER_RULE - acc.length = 0 := by omega
    rw [hs]
    rfl

lemma tcflower_match_loop_step {et : EtherProtoType} {toks : List String}
    {acc : List kefir_match} (h1 : 2 < toks.length)
    (h2 : acc.length < KEFIR_MAX_MATCH_PER_RULE) :
    tcflower_match_loop et toks acc =
      match tcflower_parse_match toks et initMatch with
      | .error e => .error e
      | .ok p => tcflower_match_loop et p.2 (acc ++ [p.1]) := by
  unfold tcflower_match_loop
  have hs : KEFIR_MAX_MATCH_PER_RULE - acc.length =
      (KEFIR_MAX_MATCH_PER_RULE - (acc.length + 1)) + 1 := by omega
  rw [hs, matchLoopAux, if_pos h1]
  rcases hpm : tcflower_parse_match toks et initMatch with e | pr <;> dsimp only
  all_goals simp [List.length_append]

lemma matchLoopAux_complete {et : EtherProtoType} :
    ∀ (cs : List (String × String)) (ms : List kefir_match),
      List.Forall₂
        (fun c m => tcflower_match_dispatch c.1 c.2 et initMatch = .ok m)
        cs ms →
      ∀ (slots : Nat) (tail : List String) (acc : List kefir_match),
        cs.length ≤ slots → tail.length = 2 →
        matchLoopAux et slots (clauseTokens cs ++ tail) acc =
          .ok (acc ++ ms, tail) := by
  intro cs ms hfa
  induction hfa with
  | nil =>
    intro slots tail acc _ htail
    cases slots with
    | zero => simp [matchLoopAux, clauseTokens]
    | succ s =>
      unfold matchLoopAux
      rw [if_neg (by simp [clauseTokens]; omega)]
      simp [clauseTokens]
  | cons hcm hfa2 ih =>
    rename_i c m cs2 ms2
    intro slots tail acc hslots htail
    cases slots with
    | zero => simp at hslots
    | succ s =>
      rw [clauseTokens_cons]
      unfold matchLoopAux
      rw [if_pos (by simp only [List.length_cons, List.length_append,
        clauseTokens_length]; omega)]
      have hne : clauseTokens cs2 ++ tail ≠ [] := by
        intro hc
        have := congrArg List.length hc
        simp [clauseTokens_length, htail] at this
      have hpm := @tcflower_parse_match_intro c.1 c.2 (clauseTokens cs2 ++ tail)
        et initMatch m hne (by rw [initMatch_set_equal]; exact hcm)
      rw [List.cons_append, List.cons_append, hpm]
      dsimp only
      rw [ih s tail (acc ++ [m]) (by simpa using hslots) htail]
      simp


lemma matchlistScan_replicate (k : Nat) :
    matchlistScan (List.replicate k initMatch) = (false, false) := by
  cases k <;> rfl

lemma matchlistScan_dense {ms : List kefir_match} (k : Nat)
    (h : ∀ m ∈ ms, m.match_type ≠ .UNSPEC) :
    matchlistScan (ms ++ List.replicate k initMatch) =
      (ms.any (fun m => typeIsL4Port m.match_type),
       ms.any (fun m => typeIsL4Proto m.match_type)) := by
  induction ms with
  | nil => simpa using matchlistScan_replicate k
  | cons m rest ih =>
    rw [List.cons_append, matchlistScan]
    rw [if_neg (h m (by simp))]
    rw [ih (fun m2 hm2 => h m2 (by simp [hm2]))]
    simp [Bool.or_comm]

lemma matchesUpToUnspec_replicate (k : Nat) :
    matchesUpToUnspec (List.replicate k initMatch) = [] := by
  cases k <;> rfl

lemma matchesUpToUnspec_dense {ms : List kefir_match} (k : Nat)
    (h : ∀ m ∈ ms, m.match_type ≠ .UNSPEC) :
    matchesUpToUnspec (ms ++ List.replicate k initMatch) = ms := by
  induction ms with
  | nil => simpa using matchesUpToUnspec_replicate k
  | cons m rest ih =>
    rw [List.cons_append, matchesUpToUnspec]
    rw [if_neg (h m (by simp))]
    rw [ih (fun m2 hm2 => h m2 (by simp [hm2]))]

lemma tcflower_parse_ethproto_ok {toks toks1 : List String}
    {et : EtherProtoType} (h : tcflower_parse_ethproto toks = .ok (et, toks1)) :
    ∃ fam, toks = fam :: toks1 ∧
      (((fam = "ip" ∨ fam = "ipv4") ∧ et = .IPV4) ∨
        (fam = "ipv6" ∧ et = .IPV6)) := by
  match toks with
  | [] => exact absurd h (by simp [tcflower_parse_ethproto])
  | fam :: rest =>
    unfold tcflower_parse_ethproto at h
    dsimp only at h
    by_cases h1 : fam = "ip" ∨ fam = "ipv4"
    · rw [if_pos h1] at h
      cases h
      exact ⟨fam, rfl, .inl ⟨h1, rfl⟩⟩
    · rw [if_neg h1] at h
      by_cases h2 : fam = "ipv6"
      · rw [if_pos h2] at h
        cases h
        exact ⟨fam, rfl, .inr ⟨h2, rfl⟩⟩
      · rw [if_neg h2] at h
        cases h

lemma tcflower_parse_rule_ok_stages {toks : List String} {r : kefir_rule}
    (h : tcflower_parse_rule toks = .ok r) :
    ∃ rest et toks1 ms toks3 ac,
      toks = "protocol" :: rest ∧ 6 ≤ toks.length ∧
      tcflower_parse_ethproto rest = .ok (et, toks1) ∧
      tcflower_match_loop et (skipFlower toks1) [] = .ok (ms, toks3) ∧
      tcflower_check_matchlist (padMatches ms) = .ok () ∧
      tcflower_parse_action toks3 = .ok ac ∧
      r = tcflower_compose_rule (padMatches ms) ac := by
  unfold tcflower_parse_rule at h
  by_cases hlen : toks.length < 6
  · rw [if_pos hlen] at h; cases h
  · rw [if_neg hlen] at h
    match toks, hlen, h with
    | t0 :: rest, hlen, h =>
      dsimp only at h
      by_cases hp0 : t0 = "protocol"
      · rw [if_neg (by simp [hp0])] at h
        rcases he : tcflower_parse_ethproto rest with e | pe <;>
          rw [he] at h <;> dsimp only at h
        · cases h
        · rcases pe with ⟨et, toks1⟩
          rcases hl : tcflower_match_loop et (skipFlower toks1) [] with e | pl <;>
            rw [hl] at h <;> dsimp only at h
          · cases h
          · rcases pl with ⟨ms, toks3⟩
            rcases hc : tcflower_check_matchlist (padMatches ms) with e | u <;>
              rw [hc] at h <;> dsimp only at h
            · cases h
            · rcases ha : tcflower_parse_action toks3 with e | ac <;>
                rw [ha] at h <;> dsimp only at h
              · cases h
              · cases h
                subst hp0
                exact ⟨rest, et, toks1, ms, toks3, ac, rfl, by omega, he, hl,
                  hc, ha, rfl⟩
      · rw [if_pos hp0] at h
        cases h

lemma tcflower_match_dispatch_ne_bac {kw v : String} {et : EtherProtoType}
    {m1 : kefir_match} :
    tcflower_match_dispatch kw v et m1 ≠ .error .BadArgumentCount := by
  intro h
  unfold tcflower_match_dispatch at h
  by_cases hk1 : kw = "dst_mac"
  · rw [if_pos hk1] at h
    rcases hp : parse_eth_addr_slash_mask v with _ | p <;> rw [hp] at h <;> dsimp only at h <;>
      simp at h
  · rw [if_neg hk1] at h
    by_cases hk2 : kw = "src_mac"
    · rw [if_pos hk2] at h
      rcases hp : parse_eth_addr_slash_mask v with _ | p <;> rw [hp] at h <;> dsimp only at h <;>
        simp at h
    · rw [if_neg hk2] at h
      by_cases hk3 : kw = "vlan_id"
      · rw [if_pos hk3] at h
        rcases hp : parse_uint v 12 with _ | p <;> rw [hp] at h <;> dsimp only at h <;>
          simp at h
      · rw [if_neg hk3] at h
        by_cases hk4 : kw = "vlan_prio"
        · rw [if_pos hk4] at h
          rcases hp : parse_uint v 3 with _ | p <;> rw [hp] at h <;> dsimp only at h <;>
            simp at h
        · rw [if_neg hk4] at h
          by_cases hk5 : kw = "vlan_ethtype"
          · rw [if_pos hk5] at h
            rcases hp : parse_uint v 16 with _ | p <;> rw [hp] at h <;> dsimp only at h <;>
              simp at h
          · rw [if_neg hk5] at h
            by_cases hk6 : kw = "cvlan_id"
            · rw [if_pos hk6] at h
              rcases hp : parse_uint v 12 with _ | p <;> rw [hp] at h <;> dsimp only at h <;>
                simp at h
            · rw [if_neg hk6] at h
              by_cases hk7 : kw = "cvlan_prio"
              · rw [if_pos hk7] at h
                rcases hp : parse_uint v 3 with _ | p <;> rw [hp] at h <;> dsimp only at h <;>
                  simp at h
              · rw [if_neg hk7] at h
                by_cases hk8 : kw = "cvlan_ethtype"
                · rw [if_pos hk8] at h
                  rcases hp : parse_uint v 16 with _ | p <;> rw [hp] at h <;> dsimp only at h <;>
                    simp at h
                · rw [if_neg hk8] at h
                  by_cases hk9 : kw = "ip_proto"
                  · rw [if_pos hk9] at h
                    rcases hp : tcflower_parse_ipproto v with _ | p <;> rw [hp] at h <;> dsimp only at h <;>
                      simp at h
                  · rw [if_neg hk9] at h
                    by_cases hk10 : kw = "ip_tos"
                    · rw [if_pos hk10] at h
                      rcases hp : parse_uint_slash_mask v 8 with _ | p <;> rw [hp] at h <;> dsimp only at h <;>
                        simp at h
                    · rw [if_neg hk10] at h
                      by_cases hk11 : kw = "ip_ttl"
                      · rw [if_pos hk11] at h
                        rcases hp : parse_uint_slash_mask v 8 with _ | p <;> rw [hp] at h <;> dsimp only at h <;>
                          simp at h
                      · rw [if_neg hk11] at h
                        by_cases hk12 : kw = "dst_ip"
                        · rw [if_pos hk12] at h
                          by_cases het : et = EtherProtoType.IPV6
                          · rw [if_pos het] at h
                            rcases hp : parse_ipv6_addr_slash_mask v with _ | p <;> rw [hp] at h <;>
                              dsimp only at h <;> simp at h
                          · rw [if_neg het] at h
                            rcases hp : parse_ipv4_addr_slash_mask v with _ | p <;> rw [hp] at h <;>
                              dsimp only at h <;> simp at h
                        · rw [if_neg hk12] at h
                          by_cases hk13 : kw = "src_ip"
                          · rw [if_pos hk13] at h
                            by_cases het : et = EtherProtoType.IPV6
                            · rw [if_pos het] at h
                              rcases hp : parse_ipv6_addr_slash_mask v with _ | p <;> rw [hp] at h <;>
                                dsimp only at h <;> simp at h
                            · rw [if_neg het] at h
                              rcases hp : parse_ipv4_addr_slash_mask v with _ | p <;> rw [hp] at h <;>
                                dsimp only at h <;> simp at h
                          · rw [if_neg hk13] at h
                            by_cases hk14 : kw = "dst_port"
                            · rw [if_pos hk14] at h
                              rcases hp : parse_uint v 16 with _ | p <;> rw [hp] at h <;> dsimp only at h <;>
                                simp at h
                            · rw [if_neg hk14] at h
                              by_cases hk15 : kw = "src_port"
                              · rw [if_pos hk15] at h
                                rcases hp : parse_uint v 16 with _ | p <;> rw [hp] at h <;> dsimp only at h <;>
                                  simp at h
                              · rw [if_neg hk15] at h
                                simp at h

lemma tcflower_parse_match_ne_bac {toks : List String} {et : EtherProtoType}
    {m0 : kefir_match} (hlen : 3 ≤ toks.length) :
    tcflower_parse_match toks et m0 ≠ .error .BadArgumentCount := by
  intro h
  match toks, hlen, h with
  | kw :: v :: r :: rs, hlen, h =>
    unfold tcflower_parse_match at h
    rw [if_neg (by simp only [List.length_cons]; omega)] at h
    dsimp only at h
    rcases hd : tcflower_match_dispatch kw v et { m0 with comp_operator := .EQUAL }
      with e | m2 <;> rw [hd] at h <;> dsimp only at h
    · cases h
      exact tcflower_match_dispatch_ne_bac hd
    · rw [if_neg (by simp only [List.length_cons]; omega)] at h
      cases h

lemma matchLoopAux_ne_bac {et : EtherProtoType} :
    ∀ (slots : Nat) (toks : List String) (acc : List kefir_match),
      matchLoopAux et slots toks acc ≠ .error .BadArgumentCount := by
  intro slots
  induction slots with
  | zero => intro toks acc h; cases h
  | succ s ih =>
    intro toks acc h
    unfold matchLoopAux at h
    by_cases hlen : 2 < toks.length
    · rw [if_pos hlen] at h
      rcases hpm : tcflower_parse_match toks et initMatch with e | pr <;>
        rw [hpm] at h <;> dsimp only at h
      · cases h
        exact tcflower_parse_match_ne_bac (by omega) hpm
      · exact ih _ _ h
    · rw [if_neg hlen] at h
      cases h


lemma forall2_mem_right {α β : Type} {R : α → β → Prop} :
    ∀ {cs : List α} {ms : List β}, List.Forall₂ R cs ms →
      ∀ m ∈ ms, ∃ c ∈ cs, R c m := by
  intro cs ms h
  induction h with
  | nil => intro m hm; cases hm
  | cons hr _ ih =>
    intro m hm
    rcases List.mem_cons.mp hm with hm | hm
    · exact ⟨_, by simp, hm ▸ hr⟩
    · obtain ⟨c, hc, hrc⟩ := ih m hm
      exact ⟨c, by simp [hc], hrc⟩

lemma forall2_mem_left {α β : Type} {R : α → β → Prop} :
    ∀ {cs : List α} {ms : List β}, List.Forall₂ R cs ms →
      ∀ c ∈ cs, ∃ m ∈ ms, R c m := by
  intro cs ms h
  induction h with
  | nil => intro c hc; cases hc
  | cons hr _ ih =>
    intro c hc
    rcases List.mem_cons.mp hc with hc | hc
    · exact ⟨_, by simp, hc ▸ hr⟩
    · obtain ⟨m, hm, hrm⟩ := ih c hc
      exact ⟨m, by simp [hm], hrm⟩

/-- The fixed keyword table of tcflower_parse_match. -/
def matchKeywordTable : List String :=
  ["dst_mac", "src_mac", "vlan_id", "vlan_prio", "vlan_ethtype", "cvlan_id",
   "cvlan_prio", "cvlan_ethtype", "ip_proto", "ip_tos", "ip_ttl", "dst_ip",
   "src_ip", "dst_port", "src_port"]

lemma tcflower_match_dispatch_not_mem {kw v : String} {et : EtherProtoType}
    {m1 : kefir_match} (h : kw ∉ matchKeywordTable) :
    tcflower_match_dispatch kw v et m1 =
      .error (.UnsupportedMatchKeyword kw) := by
  simp only [matchKeywordTable, List.mem_cons, List.not_mem_nil, or_false,
    not_or] at h
  obtain ⟨h1, h2, h3, h4, h5, h6, h7, h8, h9, h10, h11, h12, h13, h14, h15⟩ := h
  unfold tcflower_match_dispatch
  rw [if_neg h1, if_neg h2, if_neg h3, if_neg h4, if_neg h5, if_neg h6,
    if_neg h7, if_neg h8, if_neg h9, if_neg h10, if_neg h11, if_neg h12,
    if_neg h13, if_neg h14, if_neg h15]

/-! ## The claims -/

/-- C3: the match-collection loop of tcflower_parse_rule exits exactly when at
most two tokens remain or KEFIR_MAX_MATCH_PER_RULE matches have already been
produced — it returns its state unchanged in that case, and otherwise performs
one tcflower_parse_match iteration — and when more than two tokens remain
(as after an early stop at the 5-match cap), tcflower_parse_action fails with
BadArgumentCount: there is no dedicated too-many-matches error. -/
theorem C3_loop_exit_condition :
    (∀ (et : EtherProtoType) (toks : List String) (acc : List kefir_match),
      toks.length ≤ 2 ∨ KEFIR_MAX_MATCH_PER_RULE ≤ acc.length →
      tcflower_match_loop et toks acc = .ok (acc, toks)) ∧
    (∀ (et : EtherProtoType) (toks : List String) (acc : List kefir_match),
      2 < toks.length → acc.length < KEFIR_MAX_MATCH_PER_RULE →
      tcflower_match_loop et toks acc =
        match tcflower_parse_match toks et initMatch with
        | .error e => .error e
        | .ok p => tcflower_match_loop et p.2 (acc ++ [p.1])) ∧
    (∀ toks : List String, 2 < toks.length →
      tcflower_parse_action toks = .error .BadArgumentCount) := by
  refine ⟨fun et toks acc h => tcflower_match_loop_exit h,
          fun et toks acc h1 h2 => tcflower_match_loop_step h1 h2,
          fun toks h => ?_⟩
  unfold tcflower_parse_action
  rw [if_pos (by omega)]

/-- Witness for C3 at concrete inputs: a stopped loop with two tokens left, a
stopped loop with five matches collected and tokens left over, and the action
parser rejecting three remaining tokens. -/
theorem C3_loop_exit_condition_witness :
    tcflower_match_loop .IPV4 ["action", "drop"] [] = .ok ([], ["action", "drop"]) ∧
    tcflower_match_loop .IPV4 ["vlan_id", "6", "action", "drop"]
      (List.replicate 5 initMatch) =
      .ok (List.replicate 5 initMatch, ["vlan_id", "6", "action", "drop"]) ∧
    tcflower_match_loop .IPV4 ["vlan_id", "5", "action", "drop"] [] =
      (match tcflower_parse_match ["vlan_id", "5", "action", "drop"] .IPV4
          initMatch with
       | .error e => .error e
       | .ok p => tcflower_match_loop .IPV4 p.2 ([] ++ [p.1])) ∧
    tcflower_parse_action ["vlan_id", "6", "action", "drop"] =
      .error .BadArgumentCount :=
  ⟨C3_loop_exit_condition.1 _ _ _ (Or.inl (by decide)),
   C3_loop_exit_condition.1 _ _ _ (Or.inr (by decide)),
   C3_loop_exit_condition.2.1 _ _ _ (by decide) (by decide),
   C3_loop_exit_condition.2.2 _ (by decide)⟩

/-- C6: every token sequence shorter than six tokens is rejected with
BadArgumentCount; the result does not depend on any token's content, so no
token is examined. -/
theorem C6_short_input_bad_argument_count (toks : List String)
    (h : toks.length < 6) :
    tcflower_parse_rule toks = .error .BadArgumentCount := by
  unfold tcflower_parse_rule
  rw [if_pos h]

/-- Witness for C6 at a concrete 4-token input. -/
theorem C6_short_input_bad_argument_count_witness :
    (["protocol", "ip", "vlan_id", "5"] : List String).length < 6 ∧
    tcflower_parse_rule ["protocol", "ip", "vlan_id", "5"] =
      .error .BadArgumentCount :=
  ⟨by decide, C6_short_input_bad_argument_count _ (by decide)⟩

/-- Counterexample to C7: the 4-token sequence
["protocol","arp","action","drop"] fails with BadArgumentCount (the
minimum-length check of tcflower_parse_rule precedes protocol parsing), not
with UnsupportedProtocol as the claim states. -/
theorem C7_counterexample :
    tcflower_parse_rule ["protocol", "arp", "action", "drop"] =
      .error .BadArgumentCount ∧
    tcflower_parse_rule ["protocol", "arp", "action", "drop"] ≠
      .error (.UnsupportedProtocol "arp") := by decide

/-- C7 as amended: the 4-token sequence ["protocol","arp","action","drop"]
fails with BadArgumentCount because it is shorter than six tokens; a sequence
long enough to reach protocol parsing with the unsupported family token
`arp`, such as ["protocol","arp","flower","x","action","drop"], fails with
UnsupportedProtocol carrying "arp". -/
theorem C7_amended_unsupported_protocol :
    tcflower_parse_rule ["protocol", "arp", "action", "drop"] =
      .error .BadArgumentCount ∧
    tcflower_parse_rule ["protocol", "arp", "flower", "x", "action", "drop"] =
      .error (.UnsupportedProtocol "arp") := by decide

/-- C9: tcflower_parse_match never fails with BadArgumentCount when at least
three tokens remain — its two internal token-count branches are unreachable
then — and since the match-collection loop only invokes it while more than
two tokens remain, the loop as a whole never returns BadArgumentCount. -/
theorem C9_loop_guard_excludes_bad_argument_count :
    (∀ (toks : List String) (et : EtherProtoType) (m0 : kefir_match),
      3 ≤ toks.length →
      tcflower_parse_match toks et m0 ≠ .error .BadArgumentCount) ∧
    (∀ (et : EtherProtoType) (toks : List String) (acc : List kefir_match),
      tcflower_match_loop et toks acc ≠ .error .BadArgumentCount) :=
  ⟨fun _ _ _ hlen => tcflower_parse_match_ne_bac hlen,
   fun _ _ _ => matchLoopAux_ne_bac _ _ _⟩

/-- Witness for C9: a malformed 3-token tail fails, but not with
BadArgumentCount. -/
theorem C9_loop_guard_excludes_bad_argument_count_witness :
    (3 ≤ (["vlan_id", "x", "action"] : List String).length) ∧
    tcflower_parse_match ["vlan_id", "x", "action"] .IPV4 initMatch ≠
      .error .BadArgumentCount ∧
    tcflower_match_loop .IPV4 ["vlan_id", "x", "action"] [] ≠
      .error .BadArgumentCount :=
  ⟨by decide,
   C9_loop_guard_excludes_bad_argument_count.1 _ _ _ (by decide),
   C9_loop_guard_excludes_bad_argument_count.2 _ _ _⟩


/-- C2: whenever a parse reaches the match-list validation step (the length,
protocol, family and match-collection stages succeeded) and the collected
clauses include a port clause (`dst_port`/`src_port`) but no `ip_proto`
clause, tcflower_parse_rule fails with MissingRequiredMatch, in any clause
order; and a match list holding both an L4-protocol match and a port match
passes tcflower_check_matchlist. -/
theorem C2_port_requires_ipproto :
    (∀ (rest toks1 toks3 : List String) (et : EtherProtoType)
      (ms : List kefir_match) (cs : List (String × String)),
      6 ≤ ("protocol" :: rest).length →
      tcflower_parse_ethproto rest = .ok (et, toks1) →
      tcflower_match_loop et (skipFlower toks1) [] = .ok (ms, toks3) →
      List.Forall₂
        (fun c m => tcflower_match_dispatch c.1 c.2 et initMatch = .ok m)
        cs ms →
      (∃ c ∈ cs, c.1 = "dst_port" ∨ c.1 = "src_port") →
      (∀ c ∈ cs, c.1 ≠ "ip_proto") →
      tcflower_parse_rule ("protocol" :: rest) = .error .MissingRequiredMatch) ∧
    (∀ ml : List kefir_match, ml.length ≤ KEFIR_MAX_MATCH_PER_RULE →
      (∀ m ∈ ml, m.match_type ≠ .UNSPEC) →
      ml.any (fun m => typeIsL4Port m.match_type) = true →
      ml.any (fun m => typeIsL4Proto m.match_type) = true →
      tcflower_check_matchlist (padMatches ml) = .ok ()) := by
  constructor
  · intro rest toks1 toks3 et ms cs h6 he hl hfa hport hnoproto
    have hms : ∀ m ∈ ms, m.match_type ≠ .UNSPEC := by
      intro m hm
      obtain ⟨c, -, hd⟩ := forall2_mem_right hfa m hm
      exact (tcflower_match_dispatch_ok hd).1
    have hanyport : ms.any (fun m => typeIsL4Port m.match_type) = true := by
      obtain ⟨c, hc, hck⟩ := hport
      obtain ⟨m, hm, hd⟩ := forall2_mem_left hfa c hc
      have := ((tcflower_match_dispatch_ok hd).2.2.2.2.2.2.1).mpr hck
      exact List.any_eq_true.mpr ⟨m, hm, this⟩
    have hanyproto : ms.any (fun m => typeIsL4Proto m.match_type) = false := by
      rw [List.any_eq_false]
      intro m hm hcontra
      obtain ⟨c, hc, hd⟩ := forall2_mem_right hfa m hm
      have := ((tcflower_match_dispatch_ok hd).2.2.2.2.2.2.2.1).mp hcontra
      exact hnoproto c hc this
    unfold tcflower_parse_rule
    rw [if_neg (by omega)]
    dsimp only
    rw [if_neg (by simp), he]
    dsimp only
    rw [hl]
    dsimp only
    have hcheck : tcflower_check_matchlist (padMatches ms) =
        .error .MissingRequiredMatch := by
      unfold tcflower_check_matchlist padMatches
      rw [matchlistScan_dense _ hms]
      simp [hanyport, hanyproto]
    rw [hcheck]
  · intro ml hlen hms hp hq
    unfold tcflower_check_matchlist padMatches
    rw [matchlistScan_dense _ hms]
    simp [hp, hq]

/-- Witness for C2 at the spec's own example
["protocol","ip","dst_port","80","action","drop"], and at a two-entry match
list holding an L4-protocol match and a port match. -/
theorem C2_port_requires_ipproto_witness :
    tcflower_parse_rule ["protocol", "ip", "dst_port", "80", "action", "drop"] =
      .error .MissingRequiredMatch ∧
    tcflower_check_matchlist (padMatches
      [{ initMatch with match_type := .IP_4_L4PROTO },
       { initMatch with match_type := .IP_4_L4PORT_DST }]) = .ok () :=
  ⟨C2_port_requires_ipproto.1
      ["ip", "dst_port", "80", "action", "drop"]
      ["dst_port", "80", "action", "drop"] ["action", "drop"] .IPV4
      [{ initMatch with
          match_type := .IP_4_L4PORT_DST,
          value := { data := .u16 80, format := .BIT } }]
      [("dst_port", "80")]
      (by decide) (by decide) (by decide)
      (.cons (by decide) .nil)
      ⟨("dst_port", "80"), by simp, Or.inl rfl⟩
      (by decide),
   C2_port_requires_ipproto.2 _ (by decide) (by decide) (by decide) (by decide)⟩

/-- C10: the parser writes only match_type, comp_operator, value and mask:
every slot of a successfully parsed rule keeps flags at 0 and max_value all
zero, and carries the EQUAL comparison operator. -/
theorem C10_untouched_fields (toks : List String) (r : kefir_rule)
    (h : tcflower_parse_rule toks = .ok r) :
    ∀ m ∈ r.matchList, m.flags = 0 ∧
      m.max_value = List.replicate 16 0 ∧ m.comp_operator = .EQUAL := by
  obtain ⟨rest, et, toks1, ms, toks3, ac, -, -, -, hl, -, -, hr⟩ :=
    tcflower_parse_rule_ok_stages h
  subst hr
  intro m hm
  unfold tcflower_compose_rule padMatches at hm
  rcases List.mem_append.mp hm with hm | hm
  · unfold tcflower_match_loop at hl
    obtain ⟨cs, ms2, hres, -, -, hfa⟩ := matchLoopAux_ok _ _ _ _ _ hl
    rw [hres] at hm
    simp only [List.nil_append] at hm
    obtain ⟨c, -, hd⟩ := forall2_mem_right hfa m hm
    obtain ⟨-, hflags, hmax, hcomp, -⟩ := tcflower_match_dispatch_ok hd
    exact ⟨hflags, hmax, hcomp⟩
  · rw [List.eq_of_mem_replicate hm]
    exact ⟨rfl, rfl, rfl⟩

/-- Witness for C10 at a concrete successful parse. -/
theorem C10_untouched_fields_witness :
    tcflower_parse_rule ["protocol", "ip", "ip_tos", "7/3", "action", "pass"] =
      .ok (tcflower_compose_rule (padMatches
        [{ initMatch with
            match_type := .IP_4_TOS,
            value := { data := .u8 7, format := .BIT },
            mask := 3 :: List.replicate 15 0 }]) .PASS) ∧
    (∀ m ∈ (tcflower_compose_rule (padMatches
        [{ initMatch with
            match_type := .IP_4_TOS,
            value := { data := .u8 7, format := .BIT },
            mask := 3 :: List.replicate 15 0 }]) .PASS).matchList,
      m.flags = 0 ∧ m.max_value = List.replicate 16 0 ∧
        m.comp_operator = .EQUAL) :=
  ⟨by decide,
   C10_untouched_fields ["protocol", "ip", "ip_tos", "7/3", "action", "pass"]
     (tcflower_compose_rule (padMatches
       [{ initMatch with
           match_type := .IP_4_TOS,
           value := { data := .u8 7, format := .BIT },
           mask := 3 :: List.replicate 15 0 }]) .PASS) (by decide)⟩


lemma mem_padMatches_cases {ms : List kefir_match} {m : kefir_match}
    (hm : m ∈ padMatches ms) : m ∈ ms ∨ m = initMatch := by
  unfold padMatches at hm
  rcases List.mem_append.mp hm with h | h
  · exact .inl h
  · exact .inr (List.eq_of_mem_replicate h)

lemma tcflower_match_loop_ms_dispatch {et : EtherProtoType}
    {toks2 toks3 : List String} {ms : List kefir_match}
    (hl : tcflower_match_loop et toks2 [] = .ok (ms, toks3)) :
    ∀ m ∈ ms, ∃ kw v, tcflower_match_dispatch kw v et initMatch = .ok m := by
  unfold tcflower_match_loop at hl
  obtain ⟨cs, ms2, hres, -, -, hfa⟩ := matchLoopAux_ok _ _ _ _ _ hl
  simp only [List.nil_append] at hres
  subst hres
  intro m hm
  obtain ⟨c, -, hd⟩ := forall2_mem_right hfa m hm
  exact ⟨c.1, c.2, hd⟩

/-- C5: a successfully parsed rule is entirely IPv4-flavored when the family
token (the second token) was `ip` or `ipv4`, and entirely IPv6-flavored when
it was `ipv6`: no slot of the match array carries a match kind of the other
address family. -/
theorem C5_family_consistency (toks : List String) (r : kefir_rule)
    (h : tcflower_parse_rule toks = .ok r) :
    ((toks[1]? = some "ip" ∨ toks[1]? = some "ipv4") →
      ∀ m ∈ r.matchList, isIPv6Flavored m.match_type = false) ∧
    (toks[1]? = some "ipv6" →
      ∀ m ∈ r.matchList, isIPv4Flavored m.match_type = false) := by
  obtain ⟨rest, et, toks1, ms, toks3, ac, htoks, -, he, hl, -, -, hr⟩ :=
    tcflower_parse_rule_ok_stages h
  obtain ⟨fam, hrest, hfam⟩ := tcflower_parse_ethproto_ok he
  subst htoks
  subst hrest
  have hidx : ("protocol" :: fam :: toks1)[1]? = some fam := by simp
  have hmatch : r.matchList = padMatches ms := by rw [hr]; rfl
  constructor
  · intro hfam4 m hm
    have het : et ≠ .IPV6 := by
      rcases hfam with ⟨-, he4⟩ | ⟨hf, -⟩
      · rw [he4]; decide
      · exfalso
        rcases hfam4 with h4 | h4 <;> rw [hidx] at h4 <;>
          rw [hf] at h4 <;> simp at h4
    rw [hmatch] at hm
    rcases mem_padMatches_cases hm with hm | hm
    · obtain ⟨kw, v, hd⟩ := tcflower_match_loop_ms_dispatch hl m hm
      exact (tcflower_match_dispatch_ok hd).2.2.2.2.1 het
    · rw [hm]; decide
  · intro hfam6 m hm
    have het : et = .IPV6 := by
      rcases hfam with ⟨hf, -⟩ | ⟨-, he6⟩
      · exfalso
        rw [hidx] at hfam6
        rcases hf with hf | hf <;> rw [hf] at hfam6 <;> simp at hfam6
      · exact he6
    rw [hmatch] at hm
    rcases mem_padMatches_cases hm with hm | hm
    · obtain ⟨kw, v, hd⟩ := tcflower_match_loop_ms_dispatch hl m hm
      exact (tcflower_match_dispatch_ok hd).2.2.2.2.2.1 het
    · rw [hm]; decide

/-- Witness for C5 at a concrete IPv6 parse. -/
theorem C5_family_consistency_witness :
    tcflower_parse_rule
      ["protocol", "ipv6", "ip_proto", "tcp", "dst_port", "80", "action", "pass"] =
      .ok (tcflower_compose_rule (padMatches
        [{ initMatch with
            match_type := .IP_6_L4PROTO,
            value := { data := .u8 6, format := .BIT } },
         { initMatch with
            match_type := .IP_6_L4PORT_DST,
            value := { data := .u16 80, format := .BIT } }]) .PASS) ∧
    (∀ m ∈ (tcflower_compose_rule (padMatches
        [{ initMatch with
            match_type := .IP_6_L4PROTO,
            value := { data := .u8 6, format := .BIT } },
         { initMatch with
            match_type := .IP_6_L4PORT_DST,
            value := { data := .u16 80, format := .BIT } }]) .PASS).matchList,
      isIPv4Flavored m.match_type = false) :=
  ⟨by decide,
   (C5_family_consistency
     ["protocol", "ipv6", "ip_proto", "tcp", "dst_port", "80", "action", "pass"]
     (tcflower_compose_rule (padMatches
       [{ initMatch with
           match_type := .IP_6_L4PROTO,
           value := { data := .u8 6, format := .BIT } },
        { initMatch with
           match_type := .IP_6_L4PORT_DST,
           value := { data := .u16 80, format := .BIT } }]) .PASS)
     (by decide)).2 (by decide)⟩

/-- C4: every successfully parsed rule has a full 5-slot match array whose
populated prefix (up to the first UNSPEC sentinel) holds between 1 and 5
matches, exactly one action code, and the populated slots are, in order, the
dispatch results of the match clauses as they appeared in the token stream. -/
theorem C4_rule_shape (toks : List String) (r : kefir_rule)
    (h : tcflower_parse_rule toks = .ok r) :
    r.matchList.length = KEFIR_MAX_MATCH_PER_RULE ∧
    1 ≤ (matchesUpToUnspec r.matchList).length ∧
    (matchesUpToUnspec r.matchList).length ≤ KEFIR_MAX_MATCH_PER_RULE ∧
    (r.action = .PASS ∨ r.action = .DROP) ∧
    ∃ et cs rest2,
      tcflower_parse_ethproto (toks.drop 1) = .ok (et, toks.drop 2) ∧
      skipFlower (toks.drop 2) = clauseTokens cs ++ rest2 ∧
      List.Forall₂
        (fun c m => tcflower_match_dispatch c.1 c.2 et initMatch = .ok m)
        cs (matchesUpToUnspec r.matchList) := by
  obtain ⟨rest, et, toks1, ms, toks3, ac, htoks, h6, he, hl, -, -, hr⟩ :=
    tcflower_parse_rule_ok_stages h
  obtain ⟨fam, hrest, -⟩ := tcflower_parse_ethproto_ok he
  subst htoks
  subst hrest
  unfold tcflower_match_loop at hl
  obtain ⟨cs, ms, hres, hdec, hlen2, hfa⟩ := matchLoopAux_ok _ _ _ _ _ hl
  simp only [List.nil_append] at hres
  subst hres
  have hms : ∀ m ∈ ms, m.match_type ≠ .UNSPEC := by
    intro m hm
    obtain ⟨c, -, hd⟩ := forall2_mem_right hfa m hm
    exact (tcflower_match_dispatch_ok hd).1
  have hlenms : ms.length ≤ KEFIR_MAX_MATCH_PER_RULE := by simpa using hlen2
  have hmatch : r.matchList = padMatches ms := by rw [hr]; rfl
  have hupto : matchesUpToUnspec r.matchList = ms := by
    rw [hmatch]
    unfold padMatches
    exact matchesUpToUnspec_dense _ hms
  have h2lt : 2 < (skipFlower toks1).length := by
    have h4 : 4 ≤ toks1.length := by
      simp only [List.length_cons] at h6
      omega
    cases toks1 with
    | nil => simp at h4
    | cons t ts =>
      unfold skipFlower
      dsimp only
      simp only [List.length_cons] at h4
      by_cases hf : t = "flower"
      · rw [if_pos hf]; omega
      · rw [if_neg hf]; simp only [List.length_cons]; omega
  have hnem : 0 < ms.length := by
    have hl5 : matchLoopAux et (4 + 1) (skipFlower toks1) [] = .ok (ms, toks3) :=
      hl
    simpa using matchLoopAux_ok_nonempty h2lt hl5
  refine ⟨?_, ?_, ?_, ?_, et, cs, toks3, ?_, ?_, ?_⟩
  · rw [hmatch]
    unfold padMatches
    simp only [List.length_append, List.length_replicate]
    omega
  · rw [hupto]; omega
  · rw [hupto]; exact hlenms
  · rw [hr]; cases ac
    · exact .inr rfl
    · exact .inl rfl
  · exact he
  · exact hdec
  · rw [hupto]; exact hfa

/-- Witness for C4 at a concrete parse that also exercises the optional
`flower` keyword skip. -/
theorem C4_rule_shape_witness :
    tcflower_parse_rule
      ["protocol", "ip", "flower", "vlan_id", "5", "action", "drop"] =
      .ok (tcflower_compose_rule (padMatches
        [{ initMatch with
            match_type := .SVLAN_ID,
            value := { data := .u16 5, format := .BIT } }]) .DROP) ∧
    ((tcflower_compose_rule (padMatches
        [{ initMatch with
            match_type := .SVLAN_ID,
            value := { data := .u16 5, format := .BIT } }]) .DROP).matchList.length =
      KEFIR_MAX_MATCH_PER_RULE ∧
     1 ≤ (matchesUpToUnspec (tcflower_compose_rule (padMatches
        [{ initMatch with
            match_type := .SVLAN_ID,
            value := { data := .u16 5, format := .BIT } }]) .DROP).matchList).length ∧
     (matchesUpToUnspec (tcflower_compose_rule (padMatches
        [{ initMatch with
            match_type := .SVLAN_ID,
            value := { data := .u16 5, format := .BIT } }]) .DROP).matchList).length ≤
       KEFIR_MAX_MATCH_PER_RULE ∧
     ((tcflower_compose_rule (padMatches
        [{ initMatch with
            match_type := .SVLAN_ID,
            value := { data := .u16 5, format := .BIT } }]) .DROP).action = .PASS ∨
      (tcflower_compose_rule (padMatches
        [{ initMatch with
            match_type := .SVLAN_ID,
            value := { data := .u16 5, format := .BIT } }]) .DROP).action = .DROP) ∧
     ∃ et cs rest2,
       tcflower_parse_ethproto
         (["protocol", "ip", "flower", "vlan_id", "5", "action", "drop"].drop 1) =
         .ok (et, ["protocol", "ip", "flower", "vlan_id", "5", "action", "drop"].drop 2) ∧
       skipFlower
         (["protocol", "ip", "flower", "vlan_id", "5", "action", "drop"].drop 2) =
         clauseTokens cs ++ rest2 ∧
       List.Forall₂
         (fun c m => tcflower_match_dispatch c.1 c.2 et initMatch = .ok m)
         cs (matchesUpToUnspec (tcflower_compose_rule (padMatches
           [{ initMatch with
               match_type := .SVLAN_ID,
               value := { data := .u16 5, format := .BIT } }]) .DROP).matchList)) :=
  ⟨by decide,
   C4_rule_shape ["protocol", "ip", "flower", "vlan_id", "5", "action", "drop"]
     (tcflower_compose_rule (padMatches
       [{ initMatch with
           match_type := .SVLAN_ID,
           value := { data := .u16 5, format := .BIT } }]) .DROP) (by decide)⟩


/-- Counterexample to C8: in the successfully parsed rule for
["protocol","ip","vlan_id","5","action","drop"], the vlan_id match (slot 0)
keeps the all-zeros initialization mask — every slot's mask is all-zeros —
whereas the claim asserts plain-uint keywords produce an all-ones mask. -/
theorem C8_counterexample :
    (tcflower_parse_rule ["protocol", "ip", "vlan_id", "5", "action", "drop"]).map
      (fun r => r.matchList.map (fun m => m.mask)) =
      .ok (List.replicate 5 (List.replicate 16 0)) ∧
    List.replicate 16 (0 : Nat) ≠ onesMask16 := by decide

/-- C8 as amended: a match produced from a plain-uint keyword (vlan_id,
vlan_prio, vlan_ethtype, cvlan_id, cvlan_prio, cvlan_ethtype, ip_proto,
dst_port, src_port) leaves the mask exactly as it was — all-zeros for the
zero-initialized slots of tcflower_parse_rule — while a match produced from a
slash-mask-capable keyword carries the codec's mask, which is all-ones when
the value literal contains no explicit `/mask`; and every populated slot of a
successfully parsed rule is such a dispatch result on a zero-initialized
match. -/
theorem C8_mask_discipline_amended :
    (∀ (kw v : String) (et : EtherProtoType) (m0 m : kefir_match),
      kw ∈ plainUintKeywords →
      tcflower_match_dispatch kw v et m0 = .ok m → m.mask = m0.mask) ∧
    (∀ (kw v : String) (et : EtherProtoType) (m0 m : kefir_match),
      kw ∈ slashMaskKeywords → v.toList.contains '/' = false →
      tcflower_match_dispatch kw v et m0 = .ok m → m.mask = onesMask16) ∧
    (∀ (toks : List String) (r : kefir_rule),
      tcflower_parse_rule toks = .ok r →
      ∀ m ∈ matchesUpToUnspec r.matchList,
        ∃ kw v et, tcflower_match_dispatch kw v et initMatch = .ok m) := by
  refine ⟨fun kw v et m0 m hmem hd =>
            (tcflower_match_dispatch_ok hd).2.2.2.2.2.2.2.2.1 hmem,
          fun kw v et m0 m hmem hnc hd =>
            (tcflower_match_dispatch_ok hd).2.2.2.2.2.2.2.2.2 hmem hnc,
          fun toks r h m hm => ?_⟩
  obtain ⟨rest, et, toks1, ms, toks3, ac, -, -, -, hl, -, -, hr⟩ :=
    tcflower_parse_rule_ok_stages h
  have hdisp := tcflower_match_loop_ms_dispatch hl
  have hms : ∀ m2 ∈ ms, m2.match_type ≠ .UNSPEC := by
    intro m2 hm2
    obtain ⟨kw, v, hd⟩ := hdisp m2 hm2
    exact (tcflower_match_dispatch_ok hd).1
  have hupto : matchesUpToUnspec r.matchList = ms := by
    rw [hr]
    show matchesUpToUnspec (padMatches ms) = ms
    unfold padMatches
    exact matchesUpToUnspec_dense _ hms
  rw [hupto] at hm
  obtain ⟨kw, v, hd⟩ := hdisp m hm
  exact ⟨kw, v, et, hd⟩

/-- Witness for the amended C8: a vlan_id match keeps the zero mask, an
ip_tos match with no explicit mask gets the all-ones codec mask, and the
populated slot of a parsed rule is a dispatch result. -/
theorem C8_mask_discipline_amended_witness :
    ({ initMatch with
        match_type := MatchType.SVLAN_ID,
        value := { data := ValueData.u16 5, format := .BIT } } : kefir_match).mask =
      initMatch.mask ∧
    ({ initMatch with
        match_type := MatchType.IP_4_TOS,
        value := { data := ValueData.u8 7, format := .BIT },
        mask := onesMask16 } : kefir_match).mask = onesMask16 ∧
    (∀ m ∈ matchesUpToUnspec (tcflower_compose_rule (padMatches
        [{ initMatch with
            match_type := .SVLAN_ID,
            value := { data := .u16 5, format := .BIT } }]) .DROP).matchList,
      ∃ kw v et, tcflower_match_dispatch kw v et initMatch = .ok m) :=
  ⟨C8_mask_discipline_amended.1 "vlan_id" "5" .IPV4 initMatch
     { initMatch with
        match_type := MatchType.SVLAN_ID,
        value := { data := ValueData.u16 5, format := .BIT } }
     (by decide) (by decide),
   C8_mask_discipline_amended.2.1 "ip_tos" "7" .IPV4 initMatch
     { initMatch with
        match_type := MatchType.IP_4_TOS,
        value := { data := ValueData.u8 7, format := .BIT },
        mask := onesMask16 }
     (by decide) (by decide) (by decide),
   C8_mask_discipline_amended.2.2
     ["protocol", "ip", "vlan_id", "5", "action", "drop"]
     (tcflower_compose_rule (padMatches
       [{ initMatch with
           match_type := .SVLAN_ID,
           value := { data := .u16 5, format := .BIT } }]) .DROP)
     (by decide)⟩

/-- Counterexample to C1: the token sequence
["protocol","ip","dst_port","80","action","drop"] conforms to the grammar
with one well-formed match clause (its dispatch succeeds) and a valid
action, yet tcflower_parse_rule rejects it with MissingRequiredMatch, because
the match-list validator requires an ip_proto match alongside any port
match. -/
theorem C1_counterexample :
    (tcflower_match_dispatch "dst_port" "80" .IPV4 initMatch).isOk = true ∧
    tcflower_parse_rule ["protocol", "ip", "dst_port", "80", "action", "drop"] =
      .error .MissingRequiredMatch := by decide

/-- C1 as amended: for every token sequence conforming to the grammar
`protocol {ip|ipv4|ipv6} [flower] <match-clause>* action {pass|drop}` with
between 1 and 5 well-formed match clauses and a valid action, where
additionally any port clause is accompanied by an ip_proto clause (the
match-list validator's requirement), tcflower_parse_rule succeeds and returns
the rule whose action is the parsed action code and whose match slots hold,
in token order, the dispatch results of the clauses. -/
theorem C1_grammar_parse_amended
    (fam act : String) (flow : List String) (cs : List (String × String))
    (ms : List kefir_match) (et : EtherProtoType) (ac : ActionCode)
    (hfam : ((fam = "ip" ∨ fam = "ipv4") ∧ et = .IPV4) ∨
      (fam = "ipv6" ∧ et = .IPV6))
    (hflow : flow = [] ∨ flow = ["flower"])
    (hact : act = "pass" ∧ ac = .PASS ∨ act = "drop" ∧ ac = .DROP)
    (hn1 : 1 ≤ cs.length) (hn5 : cs.length ≤ KEFIR_MAX_MATCH_PER_RULE)
    (hfa : List.Forall₂
      (fun c m => tcflower_match_dispatch c.1 c.2 et initMatch = .ok m) cs ms)
    (hreq : (∃ c ∈ cs, c.1 = "dst_port" ∨ c.1 = "src_port") →
      ∃ c ∈ cs, c.1 = "ip_proto") :
    tcflower_parse_rule
      ("protocol" :: fam :: (flow ++ (clauseTokens cs ++ ["action", act]))) =
      .ok { matchList := padMatches ms, action := ac } := by
  have hclen : (clauseTokens cs).length = 2 * cs.length := clauseTokens_length cs
  obtain ⟨c0, cs', hcs⟩ : ∃ c0 cs', cs = c0 :: cs' := by
    cases cs with
    | nil => simp at hn1
    | cons a b => exact ⟨a, b, rfl⟩
  have hc0flower : c0.1 ≠ "flower" := by
    have hfa2 := hfa
    rw [hcs] at hfa2
    cases hfa2 with
    | cons hd htl =>
      intro hc
      rw [hc, tcflower_match_dispatch_not_mem (by decide)] at hd
      cases hd
  unfold tcflower_parse_rule
  rw [if_neg (by
    rcases hflow with h | h <;> subst h <;>
      simp only [List.length_cons, List.length_append, List.length_nil,
        hclen] <;> omega)]
  dsimp only
  rw [if_neg (by simp)]
  have he : tcflower_parse_ethproto
      (fam :: (flow ++ (clauseTokens cs ++ ["action", act]))) =
      .ok (et, flow ++ (clauseTokens cs ++ ["action", act])) := by
    unfold tcflower_parse_ethproto
    dsimp only
    rcases hfam with ⟨hf, he2⟩ | ⟨hf, he2⟩
    · rw [if_pos hf, he2]
    · rw [if_neg (by rw [hf]; decide), if_pos hf, he2]
  rw [he]
  dsimp only
  have hskip : skipFlower (flow ++ (clauseTokens cs ++ ["action", act])) =
      clauseTokens cs ++ ["action", act] := by
    rcases hflow with h | h
    · subst h
      rw [List.nil_append, hcs, clauseTokens_cons, List.cons_append,
        List.cons_append]
      unfold skipFlower
      dsimp only
      rw [if_neg hc0flower]
    · subst h
      rw [List.singleton_append]
      unfold skipFlower
      dsimp only
      rw [if_pos rfl]
  rw [hskip]
  have hloop2 : tcflower_match_loop et
      (clauseTokens cs ++ ["action", act]) [] = .ok (ms, ["action", act]) := by
    unfold tcflower_match_loop
    simpa using
      matchLoopAux_complete cs ms hfa KEFIR_MAX_MATCH_PER_RULE
        ["action", act] [] hn5 rfl
  rw [hloop2]
  dsimp only
  have hms : ∀ m ∈ ms, m.match_type ≠ .UNSPEC := by
    intro m hm
    obtain ⟨c, -, hd⟩ := forall2_mem_right hfa m hm
    exact (tcflower_match_dispatch_ok hd).1
  have hcheck : tcflower_check_matchlist (padMatches ms) = .ok () := by
    unfold tcflower_check_matchlist padMatches
    rw [matchlistScan_dense _ hms]
    cases hport : ms.any (fun m => typeIsL4Port m.match_type)
    · simp
    · have hproto : ms.any (fun m => typeIsL4Proto m.match_type) = true := by
        obtain ⟨m, hm, hp⟩ := List.any_eq_true.mp hport
        obtain ⟨c, hc, hd⟩ := forall2_mem_right hfa m hm
        have hck := ((tcflower_match_dispatch_ok hd).2.2.2.2.2.2.1).mp hp
        obtain ⟨c2, hc2, hck2⟩ := hreq ⟨c, hc, hck⟩
        obtain ⟨m2, hm2, hd2⟩ := forall2_mem_left hfa c2 hc2
        exact List.any_eq_true.mpr
          ⟨m2, hm2, ((tcflower_match_dispatch_ok hd2).2.2.2.2.2.2.2.1).mpr hck2⟩
      simp [hproto]
  rw [hcheck]
  dsimp only
  have haction : tcflower_parse_action ["action", act] = .ok ac := by
    unfold tcflower_parse_action
    rw [if_neg (by simp)]
    dsimp only
    rw [if_neg (by simp)]
    rcases hact with ⟨ha, hc⟩ | ⟨ha, hc⟩ <;> subst ha <;> subst hc
    · rw [if_pos rfl]
    · rw [if_neg (by decide), if_pos rfl]
  rw [haction]
  rfl

/-- Witness for the amended C1 at
["protocol","ip","ip_proto","tcp","dst_port","80","action","drop"]. -/
theorem C1_grammar_parse_amended_witness :
    tcflower_parse_rule
      ("protocol" :: "ip" ::
        ([] ++ (clauseTokens [("ip_proto", "tcp"), ("dst_port", "80")] ++
          ["action", "drop"]))) =
      .ok { matchList := padMatches
              [{ initMatch with
                  match_type := .IP_4_L4PROTO,
                  value := { data := .u8 6, format := .BIT } },
               { initMatch with
                  match_type := .IP_4_L4PORT_DST,
                  value := { data := .u16 80, format := .BIT } }],
            action := .DROP } :=
  C1_grammar_parse_amended "ip" "drop" [] [("ip_proto", "tcp"), ("dst_port", "80")]
    [{ initMatch with
        match_type := .IP_4_L4PROTO,
        value := { data := .u8 6, format := .BIT } },
     { initMatch with
        match_type := .IP_4_L4PORT_DST,
        value := { data := .u16 80, format := .BIT } }]
    .IPV4 .DROP
    (Or.inl ⟨Or.inl rfl, rfl⟩) (Or.inl rfl) (Or.inr ⟨rfl, rfl⟩)
    (by decide) (by decide)
    (.cons (by decide) (.cons (by decide) .nil))
    (fun _ => ⟨("ip_proto", "tcp"), by simp, rfl⟩)

end Kefir
